import Mathlib

/-! HDMI-CEC message decoder and test dispatcher.

A shallow embedding of `decoder.c` (the static classification tables and
`libcec_decode_message`) and of `cec_test.c` (the request builders, the
transmit path and `rx_handler`), followed by the properties proved about them.

Conventions of the embedding:

* a `uint8_t` is a natural number below 256; a C array is a list and every
  indexing is a partial lookup, so a read outside an array makes the embedded
  function return `none` instead of a value;
* `printf`-style output is recorded as a list of structured lines, one
  constructor per call site, carrying the arguments of the call;
* the ioctl calls of `cec_test.c` are inputs of the embedded functions: the
  caller supplies what the driver returned.
-/

namespace CEC

/-! ## decoder.c -/

def LIBCEC_SUCCESS : Nat := 0
def LIBCEC_ERROR_INVALID_PARAM : Nat := 1
def LIBCEC_ERROR_OTHER : Nat := 2
def LIBCEC_ERROR_NOT_SUPPORTED : Nat := 3

/-- The table `msg_min_max[16][2]`: inclusive payload length bounds per class. -/
def msg_min_max : List (Nat × Nat) :=
  [ (0, 0),    -- 0
    (1, 1),    -- 1
    (2, 2),    -- 2
    (3, 3),    -- 3
    (4, 4),    -- 4
    (5, 8),    -- 5
    (1, 3),    -- 6
    (7, 7),    -- 7
    (4, 8),    -- 8
    (9, 10),   -- 9
    (2, 14),   -- A
    (11, 11),  -- B
    (1, 14),   -- C
    (3, 17),   -- D
    (14, 14),  -- E
    (3, 14) ]  -- F

/-- The table `msg_props[256]`: bits 0-4 index `msg_min_max`, bit 5 is
"directly addressed", bit 6 is "broadcast"; bits 5 and 6 both clear mean an
invalid opcode. -/
def msg_props : List Nat :=
  [ 0x22,0x00,0x00,0x00,0x20,0x20,0x20,0x25,0x21,0x28,0x21,0x20,0x00,0x20,0x00,0x20,  --  0
    0x00,0x00,0x00,0x00,0x00,0x00,0x00,0x00,0x00,0x00,0x21,0x21,0x00,0x00,0x00,0x00,  --  1
    0x00,0x00,0x00,0x00,0x00,0x00,0x00,0x00,0x00,0x00,0x00,0x00,0x00,0x00,0x00,0x00,  --  2
    0x00,0x00,0x43,0x2b,0x2b,0x26,0x60,0x00,0x00,0x00,0x00,0x00,0x00,0x00,0x00,0x00,  --  3
    0x00,0x21,0x21,0x21,0x21,0x20,0x20,0x2c,0x00,0x00,0x00,0x00,0x00,0x00,0x00,0x00,  --  4
    0x00,0x00,0x00,0x00,0x00,0x00,0x00,0x00,0x00,0x00,0x00,0x00,0x00,0x00,0x00,0x00,  --  5
    0x00,0x00,0x00,0x00,0x2a,0x00,0x00,0x2c,0x00,0x00,0x00,0x00,0x00,0x00,0x00,0x00,  --  6
    0x22,0x20,0x61,0x00,0x00,0x00,0x00,0x00,0x00,0x00,0x21,0x00,0x00,0x20,0x21,0x00,  --  7
    0x44,0x42,0x42,0x20,0x43,0x40,0x42,0x43,0x00,0x2c,0x6c,0x60,0x20,0x21,0x21,0x20,  --  8
    0x21,0x20,0x24,0x27,0x00,0x00,0x00,0x2e,0x00,0x2e,0x21,0x00,0x00,0x22,0x21,0x20,  --  9
    0x6d,0x29,0x29,0x00,0x00,0x00,0x00,0x00,0x00,0x00,0x00,0x00,0x00,0x00,0x00,0x00,  --  A
    0x00,0x00,0x00,0x00,0x00,0x00,0x00,0x00,0x00,0x00,0x00,0x00,0x00,0x00,0x00,0x00,  --  B
    0x20,0x20,0x20,0x20,0x20,0x20,0x00,0x00,0x00,0x00,0x00,0x00,0x00,0x00,0x00,0x00,  --  C
    0x00,0x00,0x00,0x00,0x00,0x00,0x00,0x00,0x00,0x00,0x00,0x00,0x00,0x00,0x00,0x00,  --  D
    0x00,0x00,0x00,0x00,0x00,0x00,0x00,0x00,0x00,0x00,0x00,0x00,0x00,0x00,0x00,0x00,  --  E
    0x00,0x00,0x00,0x00,0x00,0x00,0x00,0x00,0x4f,0x00,0x00,0x00,0x00,0x00,0x00,0x20 ] --  F

/-- The table `msg_description[70]`. -/
def msg_description : List String :=
  [ "*Unsupported Opcode*",          -- N/A   0
    "Feature Abort",                 -- 0x00  1
    "Image View On",                 -- 0x04  2
    "Tuner Step Increment",          -- 0x05  3
    "Tuner Step Decrement",          -- 0x06  4
    "Tuner Device Status",           -- 0x07  5
    "Give Tuner Device Status",      -- 0x08  6
    "Record On",                     -- 0x09  7
    "Record Status",                 -- 0x0A  8
    "Record Off",                    -- 0x0B  9
    "Text View On",                  -- 0x0D  10
    "Record TV Screen",              -- 0x0F  11
    "Give Deck Status",              -- 0x1A  12
    "Deck Status",                   -- 0x1B  13
    "Set Menu Language",             -- 0x32  14
    "Clear Analogue Timer",          -- 0x33  15
    "Set Analogue Timer",            -- 0x34  16
    "Timer Status",                  -- 0x35  17
    "Standby",                       -- 0x36  18
    "Play",                          -- 0x41  19
    "Deck Control",                  -- 0x42  20
    "Timer Cleared Status",          -- 0x43  21
    "User Control Pressed",          -- 0x44  22
    "User Control Released",         -- 0x45  23
    "Give OSD Name",                 -- 0x46  24
    "Set OSD Name",                  -- 0x47  25
    "Set OSD String",                -- 0x64  26
    "Set Timer Program Title",       -- 0x67  27
    "System Audio Mode Request",     -- 0x70  28
    "Give Audio Status",             -- 0x71  29
    "Set System Audio Mode",         -- 0x72  30
    "Report Audio Status",           -- 0x7A  31
    "Give System Audio Mode Status", -- 0x7D  32
    "System Audio Mode Status",      -- 0x7E  33
    "Routing Change",                -- 0x80  34
    "Routing Information",           -- 0x81  35
    "Active Source",                 -- 0x82  36
    "Give Physical Address",         -- 0x83  37
    "Report Physical Address",       -- 0x84  38
    "Request Active Source",         -- 0x85  39
    "Set Stream Path",               -- 0x86  40
    "Device Vendor ID",              -- 0x87  41
    "Vendor Command",                -- 0x89  42
    "Vendor Remote Button Down",     -- 0x8A  43
    "Vendor Remote Button Up",       -- 0x8B  44
    "Give Device Vendor ID",         -- 0x8C  45
    "Menu Request",                  -- 0x8D  46
    "Menu Status",                   -- 0x8E  47
    "Give Device Power Status",      -- 0x8F  48
    "Report Power Status",           -- 0x90  49
    "Get Menu Language",             -- 0x91  50
    "Select Analogue Service",       -- 0x92  51
    "Select Digital Service",        -- 0x93  52
    "Set Digital Timer",             -- 0x97  53
    "Clear Digital Timer",           -- 0x99  54
    "Set Audio Rate",                -- 0x9A  55
    "Inactive Source",               -- 0x9D  56
    "CEC Version",                   -- 0x9E  57
    "Get CEC Version",               -- 0x9F  58
    "Vendor Command With ID",        -- 0xA0  59
    "Clear External Timer",          -- 0xA1  60
    "Set External Timer",            -- 0xA2  61
    "Initiate ARC",                  -- 0xC0  62
    "Report ARC Initiated",          -- 0xC1  63
    "Report ARC Terminated",         -- 0xC2  64
    "Request ARC Initiation",        -- 0xC3  65
    "Request ARC Termination",       -- 0xC4  66
    "Terminate ARC",                 -- 0xC5  67
    "CDC Message",                   -- 0xF8  68
    "Abort" ]                        -- 0xFF  69

/-- The table `msg_index[256]` (the C source writes the entries 1 to 7 in
octal, `01` to `07`, which are the same numbers). -/
def msg_index : List Nat :=
  [  1, 0, 0, 0, 2, 3, 4, 5, 6, 7, 8, 9, 0,10, 0,11,  --  0
     0, 0, 0, 0, 0, 0, 0, 0, 0, 0,12,13, 0, 0, 0, 0,  --  1
     0, 0, 0, 0, 0, 0, 0, 0, 0, 0, 0, 0, 0, 0, 0, 0,  --  2
     0, 0,14,15,16,17,18, 0, 0, 0, 0, 0, 0, 0, 0, 0,  --  3
     0,19,20,21,22,23,24,25, 0, 0, 0, 0, 0, 0, 0, 0,  --  4
     0, 0, 0, 0, 0, 0, 0, 0, 0, 0, 0, 0, 0, 0, 0, 0,  --  5
     0, 0, 0, 0,26, 0, 0,27, 0, 0, 0, 0, 0, 0, 0, 0,  --  6
    28,29,31, 0, 0, 0, 0, 0, 0, 0,31, 0, 0,32,33, 0,  --  7
    34,35,36,37,38,39,40,41, 0,42,43,44,45,46,47,48,  --  8
    49,50,51,52, 0, 0, 0,53, 0,54,55, 0, 0,56,57,58,  --  9
    59,60,61, 0, 0, 0, 0, 0, 0, 0, 0, 0, 0, 0, 0, 0,  --  A
     0, 0, 0, 0, 0, 0, 0, 0, 0, 0, 0, 0, 0, 0, 0, 0,  --  B
    62,63,64,65,66,67, 0, 0, 0, 0, 0, 0, 0, 0, 0, 0,  --  C
     0, 0, 0, 0, 0, 0, 0, 0, 0, 0, 0, 0, 0, 0, 0, 0,  --  D
     0, 0, 0, 0, 0, 0, 0, 0, 0, 0, 0, 0, 0, 0, 0, 0,  --  E
     0, 0, 0, 0, 0, 0, 0, 0,68, 0, 0, 0, 0, 0, 0,69 ] --  F

/-- The opcode the comments of `msg_description` write next to each entry
(`N/A` for entry 0), in the order of the entries. -/
def msg_description_opcode : List (Option Nat) :=
  [ none, some 0x00, some 0x04, some 0x05, some 0x06, some 0x07, some 0x08,
    some 0x09, some 0x0A, some 0x0B, some 0x0D, some 0x0F, some 0x1A, some 0x1B,
    some 0x32, some 0x33, some 0x34, some 0x35, some 0x36, some 0x41, some 0x42,
    some 0x43, some 0x44, some 0x45, some 0x46, some 0x47, some 0x64, some 0x67,
    some 0x70, some 0x71, some 0x72, some 0x7A, some 0x7D, some 0x7E, some 0x80,
    some 0x81, some 0x82, some 0x83, some 0x84, some 0x85, some 0x86, some 0x87,
    some 0x89, some 0x8A, some 0x8B, some 0x8C, some 0x8D, some 0x8E, some 0x8F,
    some 0x90, some 0x91, some 0x92, some 0x93, some 0x97, some 0x99, some 0x9A,
    some 0x9D, some 0x9E, some 0x9F, some 0xA0, some 0xA1, some 0xA2, some 0xC0,
    some 0xC1, some 0xC2, some 0xC3, some 0xC4, some 0xC5, some 0xF8, some 0xFF ]

/-- One line written by `libcec_decode_message` through `ceci_info`,
`ceci_warn` or `display_buffer_hex`, with the arguments of the call. -/
inductive LogLine where
  /-- The call `ceci_info("  o %1X->%1X: <Polling Message>", src, dst)` -/
  | polling (src dst : Nat)
  /-- The call `ceci_warn("unsupported Opcode: %02X", message[1])` -/
  | unsupported_opcode (opcode : Nat)
  /-- The call `ceci_warn("broadcast message received as directed: %02X", message[1])` -/
  | broadcast_as_directed (opcode : Nat)
  /-- The call `ceci_warn("directed message received as broadcast: %02X", message[1])` -/
  | directed_as_broadcast (opcode : Nat)
  /-- The call `ceci_warn("invalid payload length for opcode: %02X", message[1])` -/
  | invalid_payload_length (opcode : Nat)
  /-- The call `ceci_info("  o %1X->%1X: <%s>", src, dst, msg_description[...])` -/
  | decoded (src dst : Nat) (description : String)
  /-- The call `display_buffer_hex(buffer, length)`: the bytes printed -/
  | buffer_hex (bytes : List Nat)
  deriving DecidableEq, Repr

/-- The function `display_buffer_hex(buffer, length)`: prints `length` bytes
of `buffer`; reading past the end of the buffer is out of range. -/
def display_buffer_hex (buffer : List Nat) (length : Nat) : Option (List LogLine) :=
  if length ≤ buffer.length then some [LogLine.buffer_hex (buffer.take length)] else none

/-- The body of `libcec_decode_message` over explicit tables. `message` is
`none` for a NULL pointer and otherwise the bytes of the buffer; the result is
the returned code and the lines logged, or `none` when an array is read
outside its bounds. -/
def decode_message_with (props : List Nat) (min_max : List (Nat × Nat)) (index : List Nat)
    (description : List String) (message : Option (List Nat)) (length : Nat) :
    Option (Nat × List LogLine) :=
  match message with
  | none => some (LIBCEC_ERROR_INVALID_PARAM, [])
  | some buf =>
    if length < 1 then some (LIBCEC_ERROR_INVALID_PARAM, []) else
    match buf[0]? with
    | none => none
    | some m0 =>
      let src := m0 >>> 4
      let dst := m0 &&& 0x0F
      -- Polling Message
      if length = 1 then some (LIBCEC_SUCCESS, [LogLine.polling src dst]) else
      match buf[1]? with
      | none => none
      | some m1 =>
        match props[m1]? with
        | none => none
        | some p =>
          if p &&& 0x60 = 0 then
            some (LIBCEC_ERROR_NOT_SUPPORTED, [LogLine.unsupported_opcode m1])
          -- Broadcasted messages received as directed messages
          else if dst = 0x0F ∧ p &&& 0x40 = 0 then
            some (LIBCEC_ERROR_OTHER, [LogLine.broadcast_as_directed m1])
          else if dst ≠ 0x0F ∧ p &&& 0x20 = 0 then
            some (LIBCEC_ERROR_OTHER, [LogLine.directed_as_broadcast m1])
          else
            match min_max[p &&& 0x1F]? with
            | none => none
            | some (lo, hi) =>
              if length - 2 < lo ∨ length - 2 > hi then
                some (LIBCEC_ERROR_INVALID_PARAM, [LogLine.invalid_payload_length m1])
              else
                match index[m1]? with
                | none => none
                | some k =>
                  match description[k]? with
                  | none => none
                  | some text =>
                    match display_buffer_hex (buf.drop 1) (length - 1) with
                    | none => none
                    | some dump => some (LIBCEC_SUCCESS, LogLine.decoded src dst text :: dump)

/-- The function `libcec_decode_message(message, length)` of `decoder.c`. -/
def libcec_decode_message (message : Option (List Nat)) (length : Nat) :
    Option (Nat × List LogLine) :=
  decode_message_with msg_props msg_min_max msg_index msg_description message length

/-! ## cec_test.c -/

def OPCODE_FEATURE_ABORT : Nat := 0x00
def OPCODE_ACTIVE_SOURCE : Nat := 0x82
def OPCODE_DEVICE_VENDOR_ID : Nat := 0x87
def OPCODE_VENDOR_COMMAND : Nat := 0x89
def OPCODE_GIVE_DEVICE_VENDOR_ID : Nat := 0x8C
def OPCODE_GIVE_DEVICE_POWER_STATUS : Nat := 0x8F

def ABORT_REASON_UNRECOGNIZED_OPCODE : Nat := 0x0
def ABORT_REASON_WRONG_MODE : Nat := 0x1
def ABORT_REASON_CANNOT_PROVIDE_SRC : Nat := 0x2
def ABORT_REASON_INVALID_OPERAND : Nat := 0x3
def ABORT_REASON_REFUSED : Nat := 0x4

/-- The table `ABORT_REASON[]` (five entries). -/
def ABORT_REASON : List String :=
  [ "Unrecognized opcode",
    "Not in correct mode to respond",
    "Cannot provide source",
    "Invalid operand",
    "Refused" ]

/-- Modelled from the spec: `struct cec_dev` is declared in the kernel header
`linux/video/cec.h`, which is not among the sources; the fields used by
`cec_test.c` are kept, as natural numbers. -/
structure cec_dev where
  device_id : Nat
  clear_existing_device : Nat
  phy_addr : Nat

/-- The type `struct cec_ctx` of `cec_test.c`. -/
structure cec_ctx where
  fd : Int
  dev : cec_dev

/-- Modelled from the spec: `struct cec_tx_data` is declared in the absent
header `linux/video/cec.h`; the fields are the ones `cec_test.c` assigns
(the TxRequest of the spec). Each field is one byte wide (the spec has
addresses 0-15, opcodes and operand bytes 0-255): a natural number, which the
builders narrow with `to_u8` when they store a wider value. The operand array
is a map from index to value. -/
structure cec_tx_data where
  dest_device_id : Nat
  initiator_device_id : Nat
  send_ping : Nat
  retry_count : Nat
  tx_cmd : Nat
  tx_count : Nat
  tx_operand : Nat → Nat

/-- Modelled from the spec: `struct cec_rx_data` is declared in the absent
header `linux/video/cec.h`; the fields are the ones `cec_test.c` reads (the
RxResult of the spec), as natural numbers, and the operand array is a map
from index to value. -/
structure cec_rx_data where
  init_device_id : Nat
  dest_device_id : Nat
  rx_cmd : Nat
  rx_count : Nat
  rx_operand : Nat → Nat

/-- The conversion of a C `int` to the byte-wide unsigned field it is stored
in: the value modulo 256. -/
def to_u8 (v : Int) : Nat :=
  (v % 256).toNat

/-- The statement `memset(&tx_cmd, 0, sizeof(tx_cmd))`. -/
def memset_tx : cec_tx_data :=
  { dest_device_id := 0, initiator_device_id := 0, send_ping := 0, retry_count := 0,
    tx_cmd := 0, tx_count := 0, tx_operand := fun _ => 0 }

/-- The statement `memset(&rx_cmd, 0, sizeof(rx_cmd))`. -/
def memset_rx : cec_rx_data :=
  { init_device_id := 0, dest_device_id := 0, rx_cmd := 0, rx_count := 0,
    rx_operand := fun _ => 0 }

/-- The assignment `operand[i] = v`. -/
def set_operand (operand : Nat → Nat) (i v : Nat) : Nat → Nat :=
  fun j => if j = i then v else operand j

/-- One line written to standard output by `cec_test.c`, with the arguments
of the `printf` call. -/
inductive Output where
  /-- The call `printf("RX <- {initiator:..., dest:..., opcode:..., len:..., data:[%s]}\n", ...)` -/
  | rx_dump (initiator dest opcode len : Nat) (data : List Char)
  /-- The call `printf("TX -> {initiator:..., dest:..., opcode:..., len:..., data:[%s]}\n", ...)` -/
  | tx_dump (initiator dest opcode len : Nat) (data : List Char)
  /-- The call `printf("TX result = %d\n", ret)` -/
  | tx_result (ret : Int)
  /-- The call `printf("PING result = %s\n", ret == 1 ? "SUCCESS" : "ERROR")` -/
  | ping_result (text : String)
  /-- The call `printf("FEATURE_ABORT opcode:0x%02X, reason:0x%02X (%s)\n", ...)` -/
  | feature_abort (opcode reason : Nat) (text : String)
  deriving DecidableEq, Repr

/-- How a call ends: it returns a value, or the process is stopped by a
failed `assert`, or an array is accessed outside its bounds. -/
inductive Exit where
  | returned (ret : Int)
  | assert_failed
  | out_of_bounds
  deriving DecidableEq, Repr

/-- What a call did: how it ended, the requests it handed to the
`CEC_TRANSMIT_CMD` ioctl, in order, and the lines it printed. -/
structure Run where
  exit : Exit
  transmitted : List cec_tx_data
  out : List Output

/-- One upper-case hexadecimal digit. -/
def hex_digit (d : Nat) : Char :=
  if d < 10 then Char.ofNat (48 + d) else Char.ofNat (55 + d)

/-- The conversion `%02X`: upper-case hexadecimal, at least two digits. -/
def fmt_02X (v : Nat) : List Char :=
  if v < 256 then [hex_digit (v / 16), hex_digit (v % 16)]
  else (Nat.toDigits 16 v).map Char.toUpper

/-- The text produced by the format `"0x%02X, "`. -/
def fmt_operand (v : Nat) : List Char :=
  ['0', 'x'] ++ fmt_02X v ++ [',', ' ']

/-- The loop `for (i = 0; i < count; i++) p += snprintf(p, sizeof(buf) - (p - buf),
"0x%02X, ", operand[i]);` of `dump_rx_cmd` and `dump_tx_cmd`, with `todo`
iterations left, `off = p - buf` and `text` the string held by `buf`.
`sizeof(buf)` is 64; the size argument is unsigned, so once `off` exceeds 64 it
wraps to a huge value and `snprintf` writes past the buffer. `snprintf` writes
at most `size - 1` characters and returns the full length of the text. The
result is the final offset and string, or `none` after a write outside `buf`. -/
def dump_loop (operand : Nat → Nat) : (todo i off : Nat) → (text : List Char) →
    Option (Nat × List Char)
  | 0, _, off, text => some (off, text)
  | todo + 1, i, off, text =>
    if 64 < off then none
    else
      let s := fmt_operand (operand i)
      let size := 64 - off
      dump_loop operand todo (i + 1) (off + s.length) (text ++ s.take (size - 1))

/-- The formatting of the operands into `char buf[64]` shared by `dump_rx_cmd`
and `dump_tx_cmd`: the loop, then `*(p - 2) = 0`, or `*p = 0` when there is no
operand. The result is the string left in `buf`, or `none` after a write
outside `buf`. -/
def dump_buf (count : Nat) (operand : Nat → Nat) : Option (List Char) :=
  if count ≠ 0 then
    match dump_loop operand count 0 0 [] with
    | none => none
    | some (off, text) =>
      if 2 ≤ off ∧ off - 2 < 64 then some (text.take (off - 2)) else none
  else some []

/-- The function `dump_rx_cmd(rx)`: the line printed, or `none` after a write
outside `buf`. -/
def dump_rx_cmd (rx : cec_rx_data) : Option Output :=
  match dump_buf rx.rx_count rx.rx_operand with
  | none => none
  | some buf => some (Output.rx_dump rx.init_device_id rx.dest_device_id rx.rx_cmd rx.rx_count buf)

/-- The function `dump_tx_cmd(tx)`: the line printed, or `none` after a write
outside `buf`. -/
def dump_tx_cmd (tx : cec_tx_data) : Option Output :=
  match dump_buf tx.tx_count tx.tx_operand with
  | none => none
  | some buf =>
    some (Output.tx_dump tx.initiator_device_id tx.dest_device_id tx.tx_cmd tx.tx_count buf)

/-- The function `cmd_tx(ctx, tx)`. `ioctl_transmit` is the driver: the value
`ioctl(ctx->fd, CEC_TRANSMIT_CMD, tx)` returns for a request. -/
def cmd_tx (ioctl_transmit : cec_tx_data → Int) (_ctx : cec_ctx) (tx : cec_tx_data) : Run :=
  let ret := ioctl_transmit tx
  if ret ≠ 1 then
    { exit := Exit.returned ret, transmitted := [tx], out := [Output.tx_result ret] }
  else
    match dump_tx_cmd tx with
    | none => { exit := Exit.out_of_bounds, transmitted := [tx], out := [] }
    | some line => { exit := Exit.returned ret, transmitted := [tx], out := [line] }

/-- The function `cmd_rx(ctx, rx)`. `ioctl_receive` is the driver: the value
`ioctl(ctx->fd, CEC_RECV_CMD, rx)` returned and the contents of `*rx` after
the call. -/
def cmd_rx (ioctl_receive : Int × cec_rx_data) (_ctx : cec_ctx) : Int × cec_rx_data :=
  ioctl_receive

/-- The request built by `send_feature_abort` before it calls `cmd_tx`. The
`int` arguments and the device id are narrowed to the byte-wide fields and
operands they are stored in. -/
def feature_abort_request (ctx : cec_ctx) (dest_id opcode reason : Int) : cec_tx_data :=
  let tx_cmd := memset_tx
  let tx_cmd := { tx_cmd with dest_device_id := to_u8 dest_id }
  let tx_cmd := { tx_cmd with initiator_device_id := to_u8 ctx.dev.device_id }
  let tx_cmd := { tx_cmd with retry_count := 0x5 }
  let tx_cmd := { tx_cmd with tx_cmd := OPCODE_FEATURE_ABORT }
  let tx_cmd := { tx_cmd with tx_count := 0x2 }
  let tx_cmd := { tx_cmd with tx_operand := set_operand tx_cmd.tx_operand 0 (to_u8 opcode) }
  let tx_cmd := { tx_cmd with tx_operand := set_operand tx_cmd.tx_operand 1 (to_u8 reason) }
  tx_cmd

/-- The function `send_feature_abort(ctx, dest_id, opcode, reason)`. -/
def send_feature_abort (ioctl_transmit : cec_tx_data → Int) (ctx : cec_ctx)
    (dest_id opcode reason : Int) : Run :=
  cmd_tx ioctl_transmit ctx (feature_abort_request ctx dest_id opcode reason)

/-- The function `rx_handler(ctx)`. The two drivers are as in `cmd_rx` and
`cmd_tx`. -/
def rx_handler (ioctl_receive : Int × cec_rx_data) (ioctl_transmit : cec_tx_data → Int)
    (ctx : cec_ctx) : Run :=
  let (ret, rx_cmd) := cmd_rx ioctl_receive ctx
  if ret = 0 then
    if rx_cmd.rx_cmd = OPCODE_FEATURE_ABORT then
      -- assert(rx_cmd.rx_count == 2)
      if rx_cmd.rx_count ≠ 2 then
        { exit := Exit.assert_failed, transmitted := [], out := [] }
      else
        let reason := rx_cmd.rx_operand 1
        match ABORT_REASON[reason]? with
        | none => { exit := Exit.out_of_bounds, transmitted := [], out := [] }
        | some text =>
          { exit := Exit.returned ret, transmitted := [],
            out := [Output.feature_abort (rx_cmd.rx_operand 0) reason text] }
    else if rx_cmd.rx_cmd = OPCODE_GIVE_DEVICE_VENDOR_ID then
      send_feature_abort ioctl_transmit ctx (rx_cmd.init_device_id : Int) (rx_cmd.rx_cmd : Int)
        (ABORT_REASON_UNRECOGNIZED_OPCODE : Int)
    else if rx_cmd.rx_cmd = OPCODE_DEVICE_VENDOR_ID ∨ rx_cmd.rx_cmd = OPCODE_VENDOR_COMMAND then
      -- Ignore these
      { exit := Exit.returned ret, transmitted := [], out := [] }
    else
      match dump_rx_cmd rx_cmd with
      | none => { exit := Exit.out_of_bounds, transmitted := [], out := [] }
      | some line => { exit := Exit.returned ret, transmitted := [], out := [line] }
  else
    { exit := Exit.returned ret, transmitted := [], out := [] }

/-- The context `main` sets up: `clear_existing_device = 0x1`,
`device_id = 0x3`, the descriptor returned by `open` and the physical address
written by the `CEC_GET_PHY_ADDR` ioctl. -/
def main_ctx (fd : Int) (phy_addr : Nat) : cec_ctx :=
  { fd := fd, dev := { device_id := 0x3, clear_existing_device := 0x1, phy_addr := phy_addr } }

/-- The order in which the bytes of a multi-byte object lie in memory. -/
inductive ByteOrder where
  | little
  | big
  deriving DecidableEq, Repr

/-- The read `((char*)&ctx.dev.phy_addr)[i]`: byte `i` of the object holding
`phy_addr`. The object is four bytes wide (`main` goes on, in lines it leaves
commented out, to bytes 2 and 3, and prints the field with `%x`); which byte
comes first depends on the byte order of the machine. -/
def stored_byte (order : ByteOrder) (v i : Nat) : Nat :=
  match order with
  | ByteOrder.little => (v >>> (8 * i)) &&& 0xFF
  | ByteOrder.big => (v >>> (8 * (3 - i))) &&& 0xFF

/-- The request built by the "Active source" block of `main`. The device id is
narrowed to the byte-wide initiator field; the two operands are `char` values
already. -/
def active_source_request (order : ByteOrder) (ctx : cec_ctx) : cec_tx_data :=
  let txd := memset_tx
  let txd := { txd with dest_device_id := 0xf }
  let txd := { txd with initiator_device_id := to_u8 ctx.dev.device_id }
  let txd := { txd with retry_count := 5 }
  let txd := { txd with tx_cmd := OPCODE_ACTIVE_SOURCE }
  let txd := { txd with tx_count := 2 }
  let txd := { txd with tx_operand := set_operand txd.tx_operand 0 (stored_byte order ctx.dev.phy_addr 0) }
  let txd := { txd with tx_operand := set_operand txd.tx_operand 1 (stored_byte order ctx.dev.phy_addr 1) }
  txd

/-- The "Active source" block of `main`: build the request, then
`ret = cmd_tx(&ctx, &txd)`. -/
def main_active_source (order : ByteOrder) (ioctl_transmit : cec_tx_data → Int)
    (ctx : cec_ctx) : Run :=
  cmd_tx ioctl_transmit ctx (active_source_request order ctx)

/-! ## Wire format -/

/-- Modelled from the spec: the wire format of section 6, which the driver
behind the ioctl implements and the sources do not: byte 0 is
`(initiator<<4) | destination`, byte 1 is the opcode, bytes 2.. are the
operands. -/
def wire_frame (initiator destination opcode : Nat) (operands : List Nat) : List Nat :=
  ((initiator <<< 4) ||| destination) :: opcode :: operands

/-- The operands a request carries: the first `tx_count` entries of `tx_operand`. -/
def tx_operands (tx : cec_tx_data) : List Nat :=
  (List.range tx.tx_count).map tx.tx_operand

/-- The operands a received frame carries: the first `rx_count` entries of
`rx_operand`. -/
def rx_operands (rx : cec_rx_data) : List Nat :=
  (List.range rx.rx_count).map rx.rx_operand

/-- Modelled from the spec: the bytes on the wire for a request that is not a
ping, per the wire format of section 6. -/
def tx_wire (tx : cec_tx_data) : List Nat :=
  wire_frame tx.initiator_device_id tx.dest_device_id tx.tx_cmd (tx_operands tx)

/-- Modelled from the spec: the bytes on the wire of a received frame, per the
wire format of section 6. -/
def rx_wire (rx : cec_rx_data) : List Nat :=
  wire_frame rx.init_device_id rx.dest_device_id rx.rx_cmd (rx_operands rx)

/-- A received GIVE_DEVICE_VENDOR_ID frame without operands, as the driver
leaves it in the zeroed `rx_cmd`. -/
def rx_give_device_vendor_id (initiator destination : Nat) : cec_rx_data :=
  { memset_rx with
    init_device_id := initiator, dest_device_id := destination,
    rx_cmd := OPCODE_GIVE_DEVICE_VENDOR_ID }

/-- A received frame as the driver leaves it in the zeroed `rx_cmd`: the
addresses, the opcode, the operand count and the operands, the rest of the
operand array staying zero. -/
def rx_frame (initiator destination opcode : Nat) (operands : List Nat) : cec_rx_data :=
  { init_device_id := initiator, dest_device_id := destination, rx_cmd := opcode,
    rx_count := operands.length, rx_operand := fun i => operands.getD i 0 }

/-! ## The decoder as the specification words it -/

/-- The OpcodeProperties of the spec (section 3). -/
structure OpcodeProperties where
  directed_allowed : Bool
  broadcast_allowed : Bool
  length_class : Nat
  deriving DecidableEq, Repr

/-- The total function `classify(opcode)` of the spec (section 4.1), read off
`msg_props`: bit 5 is "directed allowed", bit 6 is "broadcast allowed", bits
0-4 are the length class; an opcode outside the table is unsupported. -/
def classify (opcode : Nat) : OpcodeProperties :=
  let p := msg_props.getD opcode 0
  { directed_allowed := decide (p &&& 0x20 ≠ 0),
    broadcast_allowed := decide (p &&& 0x40 ≠ 0),
    length_class := p &&& 0x1F }

/-- The LengthClass of the spec: the inclusive bounds `(min, max)` of a class. -/
def length_bounds (length_class : Nat) : Nat × Nat :=
  msg_min_max.getD length_class (0, 0)

/-- The outcome of the ordered checks as the spec states them (section 4.3,
steps 2 to 6) for a frame `m` of at least two bytes, as a result code: the
first failing check wins. -/
def spec_outcome (m : List Nat) : Nat :=
  let props := classify (m.getD 1 0)
  let destination := m.getD 0 0 &&& 0x0F
  let payload_len := m.length - 2
  if props.directed_allowed = false ∧ props.broadcast_allowed = false then
    LIBCEC_ERROR_NOT_SUPPORTED
  else if (destination = 0xF ∧ props.broadcast_allowed = false)
      ∨ (destination ≠ 0xF ∧ props.directed_allowed = false) then
    LIBCEC_ERROR_OTHER
  else if payload_len < (length_bounds props.length_class).1
      ∨ (length_bounds props.length_class).2 < payload_len then
    LIBCEC_ERROR_INVALID_PARAM
  else
    LIBCEC_SUCCESS

/-- A buffer of `length` bytes: the pointer and length a caller passes. -/
def valid_buffer (m : List Nat) (length : Nat) : Prop :=
  m.length = length ∧ ∀ b ∈ m, b < 256

instance (m : List Nat) (length : Nat) : Decidable (valid_buffer m length) := by
  unfold valid_buffer; infer_instance

/-- An input a caller can pass: a NULL pointer, or a buffer of `length` bytes. -/
def well_formed_input (message : Option (List Nat)) (length : Nat) : Prop :=
  match message with
  | none => True
  | some m => valid_buffer m length

instance (message : Option (List Nat)) (length : Nat) :
    Decidable (well_formed_input message length) := by
  unfold well_formed_input; cases message <;> infer_instance

/-- The checks by which the decoder rejects an input: the contract violation
of a NULL or zero-length input, and the four decode errors of the spec
(sections 4.3 and 7). -/
inductive Check where
  | InvalidInput
  | UnsupportedOpcode
  | BroadcastMismatch
  | DirectedMismatch
  | InvalidPayloadLength
  deriving DecidableEq, Repr

/-- The check that rejects an input, following the ordered algorithm of the
spec (section 4.3); `none` when the input is accepted. -/
def rejected_by (message : Option (List Nat)) (length : Nat) : Option Check :=
  match message with
  | none => some Check.InvalidInput
  | some m =>
    if length = 0 then some Check.InvalidInput
    else if length = 1 then none
    else
      let props := classify (m.getD 1 0)
      let destination := m.getD 0 0 &&& 0x0F
      if props.directed_allowed = false ∧ props.broadcast_allowed = false then
        some Check.UnsupportedOpcode
      else if destination = 0xF ∧ props.broadcast_allowed = false then
        some Check.BroadcastMismatch
      else if destination ≠ 0xF ∧ props.directed_allowed = false then
        some Check.DirectedMismatch
      else if length - 2 < (length_bounds props.length_class).1
          ∨ (length_bounds props.length_class).2 < length - 2 then
        some Check.InvalidPayloadLength
      else none

/-- The result code the source returns where each check fails. -/
def Check.result_code : Check → Nat
  | Check.InvalidInput => LIBCEC_ERROR_INVALID_PARAM
  | Check.UnsupportedOpcode => LIBCEC_ERROR_NOT_SUPPORTED
  | Check.BroadcastMismatch => LIBCEC_ERROR_OTHER
  | Check.DirectedMismatch => LIBCEC_ERROR_OTHER
  | Check.InvalidPayloadLength => LIBCEC_ERROR_INVALID_PARAM

/-- The warning the source logs where each check fails, for opcode `o`; the
NULL or zero-length input is rejected without a line. -/
def Check.warning (o : Nat) : Check → List LogLine
  | Check.InvalidInput => []
  | Check.UnsupportedOpcode => [LogLine.unsupported_opcode o]
  | Check.BroadcastMismatch => [LogLine.broadcast_as_directed o]
  | Check.DirectedMismatch => [LogLine.directed_as_broadcast o]
  | Check.InvalidPayloadLength => [LogLine.invalid_payload_length o]

/-! ## Facts about the tables -/

set_option maxRecDepth 100000 in
theorem msg_props_length : msg_props.length = 256 := by decide

set_option maxRecDepth 100000 in
theorem msg_index_length : msg_index.length = 256 := by decide

set_option maxRecDepth 100000 in
theorem msg_min_max_length : msg_min_max.length = 16 := by decide

set_option maxRecDepth 100000 in
theorem msg_description_length : msg_description.length = 70 := by decide

set_option maxRecDepth 100000 in
theorem msg_props_class_lt : ∀ o < 256, msg_props.getD o 0 &&& 0x1F < 16 := by decide

set_option maxRecDepth 100000 in
theorem msg_index_lt : ∀ o < 256, msg_index.getD o 0 < 70 := by decide

set_option maxRecDepth 100000 in
theorem msg_props_lt : ∀ o < 256, msg_props.getD o 0 < 256 := by decide

set_option maxRecDepth 100000 in
theorem and_0x60_eq_zero : ∀ p < 256, (p &&& 0x60 = 0 ↔ p &&& 0x20 = 0 ∧ p &&& 0x40 = 0) := by
  decide

theorem lookup_getD {α : Type} (l : List α) (i : Nat) (d : α) (h : i < l.length) :
    l[i]? = some (l.getD i d) := by
  simp [List.getD, List.getElem?_eq_getElem h]

/-- The body of the decoder on a frame of at least two bytes, over any tables
in which the four lookups succeed: the chain of checks of the source. -/
theorem decode_with_frame (props : List Nat) (min_max : List (Nat × Nat)) (index : List Nat)
    (description : List String) (h o : Nat) (rest : List Nat) (p lo hi k : Nat) (text : String)
    (hp : props[o]? = some p) (hc : min_max[p &&& 0x1F]? = some (lo, hi))
    (hk : index[o]? = some k) (hd : description[k]? = some text) :
    decode_message_with props min_max index description (some (h :: o :: rest))
        (rest.length + 2) =
      some (
        if p &&& 0x60 = 0 then
          (LIBCEC_ERROR_NOT_SUPPORTED, [LogLine.unsupported_opcode o])
        else if h &&& 0x0F = 0x0F ∧ p &&& 0x40 = 0 then
          (LIBCEC_ERROR_OTHER, [LogLine.broadcast_as_directed o])
        else if h &&& 0x0F ≠ 0x0F ∧ p &&& 0x20 = 0 then
          (LIBCEC_ERROR_OTHER, [LogLine.directed_as_broadcast o])
        else if rest.length < lo ∨ rest.length > hi then
          (LIBCEC_ERROR_INVALID_PARAM, [LogLine.invalid_payload_length o])
        else
          (LIBCEC_SUCCESS,
            [LogLine.decoded (h >>> 4) (h &&& 0x0F) text, LogLine.buffer_hex (o :: rest)])) := by
  unfold decode_message_with
  simp only [hp, hc, hk, hd, display_buffer_hex]
  by_cases hb : h &&& 0x0F = 0x0F
  · simp [hb]
    split_ifs <;> simp_all
  · simp [hb]
    split_ifs <;> simp_all

/-- The decoder on a frame of at least two bytes, with every table lookup
resolved: the chain of checks of the source, in order. -/
theorem decode_frame (h o : Nat) (rest : List Nat) (ho : o < 256) :
    libcec_decode_message (some (h :: o :: rest)) (rest.length + 2) =
      some (
        if msg_props.getD o 0 &&& 0x60 = 0 then
          (LIBCEC_ERROR_NOT_SUPPORTED, [LogLine.unsupported_opcode o])
        else if h &&& 0x0F = 0x0F ∧ msg_props.getD o 0 &&& 0x40 = 0 then
          (LIBCEC_ERROR_OTHER, [LogLine.broadcast_as_directed o])
        else if h &&& 0x0F ≠ 0x0F ∧ msg_props.getD o 0 &&& 0x20 = 0 then
          (LIBCEC_ERROR_OTHER, [LogLine.directed_as_broadcast o])
        else if rest.length < (msg_min_max.getD (msg_props.getD o 0 &&& 0x1F) (0, 0)).1
            ∨ rest.length > (msg_min_max.getD (msg_props.getD o 0 &&& 0x1F) (0, 0)).2 then
          (LIBCEC_ERROR_INVALID_PARAM, [LogLine.invalid_payload_length o])
        else
          (LIBCEC_SUCCESS,
            [LogLine.decoded (h >>> 4) (h &&& 0x0F)
               (msg_description.getD (msg_index.getD o 0) ""),
             LogLine.buffer_hex (o :: rest)])) :=
  decode_with_frame msg_props msg_min_max msg_index msg_description h o rest
    (msg_props.getD o 0) (msg_min_max.getD (msg_props.getD o 0 &&& 0x1F) (0, 0)).1
    (msg_min_max.getD (msg_props.getD o 0 &&& 0x1F) (0, 0)).2
    (msg_index.getD o 0) (msg_description.getD (msg_index.getD o 0) "")
    (lookup_getD msg_props o 0 (by rw [msg_props_length]; exact ho))
    (lookup_getD msg_min_max (msg_props.getD o 0 &&& 0x1F) (0, 0)
      (by rw [msg_min_max_length]; exact msg_props_class_lt o ho))
    (lookup_getD msg_index o 0 (by rw [msg_index_length]; exact ho))
    (lookup_getD msg_description (msg_index.getD o 0) ""
      (by rw [msg_description_length]; exact msg_index_lt o ho))

/-! ## Properties of `libcec_decode_message` -/

/-- C1: for every byte sequence `m` of length `n >= 2`, the code returned by
`libcec_decode_message(m, n)` is the outcome of the ordered checks of the spec,
the first failing check winning: 3 for an opcode with neither the directed nor
the broadcast bit, else 2 for an addressing mismatch, else 1 for a payload
length outside the class bounds, else 0. -/
theorem C1_decode_is_ordered_checks (m : List Nat) (hlen : 2 ≤ m.length)
    (hbytes : ∀ b ∈ m, b < 256) :
    (libcec_decode_message (some m) m.length).map Prod.fst = some (spec_outcome m) := by
  match m, hlen, hbytes with
  | h :: o :: rest, _, hbytes =>
    have ho : o < 256 := hbytes o (by simp)
    have h60 := and_0x60_eq_zero _ (msg_props_lt o ho)
    have hlen2 : (h :: o :: rest).length = rest.length + 2 := rfl
    have e0 : (h :: o :: rest).getD 0 0 = h := rfl
    have e1 : (h :: o :: rest).getD 1 0 = o := rfl
    rw [hlen2, decode_frame h o rest ho]
    unfold spec_outcome classify length_bounds
    simp only [e0, e1, hlen2, Nat.add_sub_cancel]
    generalize msg_description.getD (msg_index.getD o 0) "" = text
    generalize msg_props.getD o 0 = p at h60 ⊢
    generalize msg_min_max.getD (p &&& 0x1F) (0, 0) = bounds
    simp only [Option.map_some', decide_eq_false_iff_not, not_not, gt_iff_lt]
    by_cases h1 : p &&& 0x60 = 0
    · have h2 := h60.1 h1
      simp [h1, h2.1, h2.2]
    · have h2 : ¬ (p &&& 0x20 = 0 ∧ p &&& 0x40 = 0) := fun hc => h1 (h60.2 hc)
      rw [if_neg h1, if_neg h2]
      split_ifs <;> first | rfl | (exfalso; tauto)

/-- C1, at the frames the claim names: `[0x03, 0x91, 0x11, 0x22]` is rejected
for its payload length, and the unsupported opcode 0x01 sent broadcast with a
payload is reported as unsupported. -/
theorem C1_decode_is_ordered_checks_witness :
    (libcec_decode_message (some [0x03, 0x91, 0x11, 0x22]) 4).map Prod.fst
        = some LIBCEC_ERROR_INVALID_PARAM
    ∧ (libcec_decode_message (some [0x0F, 0x01, 0x11, 0x22, 0x33]) 5).map Prod.fst
        = some LIBCEC_ERROR_NOT_SUPPORTED :=
  ⟨(C1_decode_is_ordered_checks [0x03, 0x91, 0x11, 0x22] (by decide) (by decide)).trans
      (by decide),
   (C1_decode_is_ordered_checks [0x0F, 0x01, 0x11, 0x22, 0x33] (by decide) (by decide)).trans
      (by decide)⟩

/-- C2: for every opcode `o` whose directed bit is set, every payload length
`L` within the bounds of its length class, every header whose destination
nibble is not 0xF and every `L` operand bytes, the decoder returns
`LIBCEC_SUCCESS` on the frame of `L + 2` bytes, and logs the frame with its
description and exactly those `L` operands after the opcode. -/
theorem C2_directed_in_range_succeeds (o L h : Nat) (operands : List Nat) (ho : o < 256)
    (hdir : (classify o).directed_allowed = true)
    (hmin : (length_bounds (classify o).length_class).1 ≤ L)
    (hmax : L ≤ (length_bounds (classify o).length_class).2)
    (hdst : h &&& 0x0F ≠ 0x0F) (hops : operands.length = L) :
    libcec_decode_message (some (h :: o :: operands)) (L + 2) =
      some (LIBCEC_SUCCESS,
        [LogLine.decoded (h >>> 4) (h &&& 0x0F) (msg_description.getD (msg_index.getD o 0) ""),
         LogLine.buffer_hex (o :: operands)]) := by
  subst hops
  have h60 := and_0x60_eq_zero _ (msg_props_lt o ho)
  rw [decode_frame h o operands ho]
  unfold classify length_bounds at *
  simp only [decide_eq_true_eq] at hdir hmin hmax
  generalize msg_description.getD (msg_index.getD o 0) "" = text
  generalize msg_props.getD o 0 = p at *
  generalize msg_min_max.getD (p &&& 0x1F) (0, 0) = bounds at *
  have h1 : ¬ p &&& 0x60 = 0 := fun hc => hdir (h60.1 hc).1
  have h4 : ¬ (operands.length < bounds.1 ∨ operands.length > bounds.2) := by
    intro hc
    rcases hc with hc | hc <;> omega
  rw [if_neg h1, if_neg (fun hc => hdst hc.1), if_neg (fun hc => hdir hc.2), if_neg h4]

set_option maxRecDepth 100000 in
/-- C2 at a concrete frame: SET_OSD_NAME (0x47, directed, 1 to 14 operands)
from 4 to 0 with three operands. -/
theorem C2_directed_in_range_succeeds_witness :
    libcec_decode_message (some [0x40, 0x47, 0x54, 0x56, 0x31]) 5 =
      some (LIBCEC_SUCCESS,
        [LogLine.decoded 4 0 "Set OSD Name", LogLine.buffer_hex [0x47, 0x54, 0x56, 0x31]]) :=
  C2_directed_in_range_succeeds 0x47 3 0x40 [0x54, 0x56, 0x31] (by decide) (by decide)
    (by decide) (by decide) (by decide) (by decide)

set_option maxRecDepth 100000 in
/-- C3 as stated fails: it is not true that every frame with destination 0xF
carrying a recognized opcode decodes successfully exactly when the broadcast
bit of the opcode is set. ACTIVE_SOURCE (0x82) has the broadcast bit, yet the
frame `[0x0F, 0x82]`, which lacks its two operands, is rejected with
`LIBCEC_ERROR_INVALID_PARAM`. -/
theorem C3_broadcast_iff_counterexample :
    ¬ (∀ (o h : Nat) (rest : List Nat), o < 256 → h < 256 →
        msg_props.getD o 0 &&& 0x60 ≠ 0 → h &&& 0x0F = 0x0F →
        (((libcec_decode_message (some (h :: o :: rest)) (rest.length + 2)).map Prod.fst
            = some LIBCEC_SUCCESS ↔ msg_props.getD o 0 &&& 0x40 ≠ 0)
          ∧ (msg_props.getD o 0 &&& 0x40 = 0 →
              (libcec_decode_message (some (h :: o :: rest)) (rest.length + 2)).map Prod.fst
                = some LIBCEC_ERROR_OTHER))) := by
  intro H
  have h1 := (H 0x82 0x0F [] (by decide) (by decide) (by decide) (by decide)).1
  have h2 : (libcec_decode_message (some [0x0F, 0x82]) 2).map Prod.fst
      = some LIBCEC_ERROR_INVALID_PARAM := by decide
  have h3 := h1.2 (by decide)
  rw [show ([] : List Nat).length + 2 = 2 from rfl, h2] at h3
  exact absurd h3 (by decide)

/-- C3, amended: on a frame of at least two bytes with destination nibble 0xF
carrying a recognized opcode `o`, the decoder fails with `LIBCEC_ERROR_OTHER`
(broadcast mismatch) when the broadcast bit of `o` is clear, whatever the
payload; when the bit is set the payload length check decides, so the frame
decodes successfully if and only if the broadcast bit is set and the payload
length lies within the bounds of the length class of `o`. -/
theorem C3_broadcast_amended (o h : Nat) (rest : List Nat) (ho : o < 256)
    (hrec : msg_props.getD o 0 &&& 0x60 ≠ 0) (hdst : h &&& 0x0F = 0x0F) :
    ((libcec_decode_message (some (h :: o :: rest)) (rest.length + 2)).map Prod.fst
        = some LIBCEC_SUCCESS ↔
      ((classify o).broadcast_allowed = true
        ∧ (length_bounds (classify o).length_class).1 ≤ rest.length
        ∧ rest.length ≤ (length_bounds (classify o).length_class).2))
    ∧ ((classify o).broadcast_allowed = false →
        libcec_decode_message (some (h :: o :: rest)) (rest.length + 2)
          = some (LIBCEC_ERROR_OTHER, [LogLine.broadcast_as_directed o]))
    ∧ ((classify o).broadcast_allowed = true →
        ¬ ((length_bounds (classify o).length_class).1 ≤ rest.length
          ∧ rest.length ≤ (length_bounds (classify o).length_class).2) →
        libcec_decode_message (some (h :: o :: rest)) (rest.length + 2)
          = some (LIBCEC_ERROR_INVALID_PARAM, [LogLine.invalid_payload_length o])) := by
  rw [decode_frame h o rest ho]
  unfold classify length_bounds
  simp only [decide_eq_true_eq, decide_eq_false_iff_not, not_not]
  generalize msg_description.getD (msg_index.getD o 0) "" = text
  generalize msg_props.getD o 0 = p at *
  generalize msg_min_max.getD (p &&& 0x1F) (0, 0) = bounds at *
  rw [if_neg hrec]
  by_cases hb : p &&& 0x40 = 0
  · simp [hb, hdst, LIBCEC_ERROR_OTHER, LIBCEC_SUCCESS]
  · by_cases hl : rest.length < bounds.1 ∨ rest.length > bounds.2
    · have hl2 : ¬ (bounds.1 ≤ rest.length ∧ rest.length ≤ bounds.2) := by
        intro hc
        rcases hl with hl | hl <;> omega
      simp [hb, hdst, hl, hl2, LIBCEC_ERROR_INVALID_PARAM, LIBCEC_SUCCESS]
    · have hl2 : bounds.1 ≤ rest.length ∧ rest.length ≤ bounds.2 := by
        constructor <;> (by_contra hc; exact hl (by omega))
      simp [hb, hdst, hl, hl2]

set_option maxRecDepth 100000 in
/-- C3, amended, at the frame the claim names: `[0x0F, 0x8C]`
(GIVE_DEVICE_VENDOR_ID sent broadcast) fails with the broadcast mismatch. -/
theorem C3_broadcast_amended_witness :
    libcec_decode_message (some [0x0F, 0x8C]) 2
      = some (LIBCEC_ERROR_OTHER, [LogLine.broadcast_as_directed 0x8C]) :=
  (C3_broadcast_amended 0x8C 0x0F [] (by decide) (by decide) (by decide)).2.1 (by decide)

/-- C4: for every opcode `o` whose `msg_props` entry has both the directed bit
and the broadcast bit clear, every header byte and every payload, the decoder
returns `LIBCEC_ERROR_NOT_SUPPORTED` and logs the unsupported opcode. -/
theorem C4_unsupported_opcode (o h : Nat) (rest : List Nat) (ho : o < 256)
    (hdir : msg_props.getD o 0 &&& 0x20 = 0) (hbc : msg_props.getD o 0 &&& 0x40 = 0) :
    libcec_decode_message (some (h :: o :: rest)) (rest.length + 2)
      = some (LIBCEC_ERROR_NOT_SUPPORTED, [LogLine.unsupported_opcode o]) := by
  rw [decode_frame h o rest ho,
    if_pos ((and_0x60_eq_zero _ (msg_props_lt o ho)).2 ⟨hdir, hbc⟩)]

set_option maxRecDepth 100000 in
/-- C4 at a concrete frame: opcode 0x01 is unsupported, also when sent
broadcast with three operands. -/
theorem C4_unsupported_opcode_witness :
    libcec_decode_message (some [0x0F, 0x01, 0x11, 0x22, 0x33]) 5
      = some (LIBCEC_ERROR_NOT_SUPPORTED, [LogLine.unsupported_opcode 0x01]) :=
  C4_unsupported_opcode 0x01 0x0F [0x11, 0x22, 0x33] (by decide) (by decide) (by decide)

/-- C5: for every header byte `h`, the decoder called on the single byte `h`
returns `LIBCEC_SUCCESS` and logs a polling message from `h >> 4` to
`h & 0x0F`; it does so over any tables, empty ones included, so no table is
consulted; for `h = 0x03` the initiator is 0 and the destination is 3. -/
theorem C5_polling_message (h : Nat) :
    libcec_decode_message (some [h]) 1
        = some (LIBCEC_SUCCESS, [LogLine.polling (h >>> 4) (h &&& 0x0F)])
    ∧ (∀ (props : List Nat) (min_max : List (Nat × Nat)) (index : List Nat)
          (description : List String),
        decode_message_with props min_max index description (some [h]) 1
          = some (LIBCEC_SUCCESS, [LogLine.polling (h >>> 4) (h &&& 0x0F)]))
    ∧ libcec_decode_message (some [0x03]) 1 = some (LIBCEC_SUCCESS, [LogLine.polling 0 3]) := by
  refine ⟨?_, ?_, ?_⟩
  · simp [libcec_decode_message, decode_message_with]
  · intro props min_max index description
    simp [decode_message_with]
  · rfl

/-- A rejected input gets the result code and the warning of the check that
rejects it. -/
theorem decode_of_rejected (message : Option (List Nat)) (length : Nat) (c : Check)
    (hw : well_formed_input message length) (hc : rejected_by message length = some c) :
    ∃ o, libcec_decode_message message length = some (c.result_code, c.warning o) := by
  match message, hw, hc with
  | none, _, hc =>
    simp only [rejected_by, Option.some.injEq] at hc
    subst hc
    exact ⟨0, rfl⟩
  | some [], hw, hc =>
    have hl : length = 0 := hw.1.symm
    subst hl
    simp only [rejected_by, if_true, Option.some.injEq] at hc
    subst hc
    exact ⟨0, rfl⟩
  | some [h], hw, hc =>
    have hl : length = 1 := hw.1.symm
    subst hl
    simp [rejected_by] at hc
  | some (h :: o :: rest), hw, hc =>
    have hl : length = rest.length + 2 := hw.1.symm
    subst hl
    have ho : o < 256 := hw.2 o (by simp)
    have h60 := and_0x60_eq_zero _ (msg_props_lt o ho)
    have e0 : (h :: o :: rest).getD 0 0 = h := rfl
    have e1 : (h :: o :: rest).getD 1 0 = o := rfl
    refine ⟨o, ?_⟩
    rw [decode_frame h o rest ho]
    have hne0 : ¬ (rest.length + 2 = 0) := by omega
    have hne1 : ¬ (rest.length + 2 = 1) := by omega
    unfold rejected_by classify length_bounds at hc
    simp only [e0, e1, Nat.add_sub_cancel, if_neg hne0, if_neg hne1, decide_eq_false_iff_not,
      not_not] at hc
    generalize msg_description.getD (msg_index.getD o 0) "" = text
    generalize msg_props.getD o 0 = p at h60 hc ⊢
    generalize msg_min_max.getD (p &&& 0x1F) (0, 0) = bounds at hc ⊢
    by_cases h1 : p &&& 0x60 = 0
    · have h2 := h60.1 h1
      rw [if_pos h2] at hc
      cases hc
      rw [if_pos h1]
      rfl
    · have h2 : ¬ (p &&& 0x20 = 0 ∧ p &&& 0x40 = 0) := fun hc => h1 (h60.2 hc)
      rw [if_neg h1]
      rw [if_neg h2] at hc
      by_cases h3 : h &&& 0x0F = 0x0F ∧ p &&& 0x40 = 0
      · rw [if_pos h3] at hc
        cases hc
        rw [if_pos h3]
        rfl
      · rw [if_neg h3] at hc
        rw [if_neg h3]
        by_cases h4 : h &&& 0x0F ≠ 0x0F ∧ p &&& 0x20 = 0
        · rw [if_pos h4] at hc
          cases hc
          rw [if_pos h4]
          rfl
        · rw [if_neg h4] at hc
          rw [if_neg h4]
          by_cases h5 : rest.length < bounds.1 ∨ bounds.2 < rest.length
          · rw [if_pos h5] at hc
            cases hc
            rw [if_pos h5]
            rfl
          · rw [if_neg h5] at hc
            cases hc

set_option maxRecDepth 100000 in
/-- C6 as stated fails: the result code alone does not identify the failed
check. A NULL input (invalid input) and `[0x03, 0x91, 0x11, 0x22]` (invalid
payload length) both return 1, and `[0x0F, 0x8C]` (broadcast mismatch) and
`[0x03, 0x82, 0x12, 0x00]` (directed mismatch) both return 2. -/
theorem C6_codes_distinguish_counterexample :
    ¬ (∀ (ma : Option (List Nat)) (la : Nat) (mb : Option (List Nat)) (lb : Nat)
        (ca cb : Check),
        well_formed_input ma la → well_formed_input mb lb →
        rejected_by ma la = some ca → rejected_by mb lb = some cb → ca ≠ cb →
        (libcec_decode_message ma la).map Prod.fst
          ≠ (libcec_decode_message mb lb).map Prod.fst)
    ∧ rejected_by (some [0x0F, 0x8C]) 2 = some Check.BroadcastMismatch
    ∧ rejected_by (some [0x03, 0x82, 0x12, 0x00]) 4 = some Check.DirectedMismatch
    ∧ (libcec_decode_message (some [0x0F, 0x8C]) 2).map Prod.fst = some LIBCEC_ERROR_OTHER
    ∧ (libcec_decode_message (some [0x03, 0x82, 0x12, 0x00]) 4).map Prod.fst
        = some LIBCEC_ERROR_OTHER := by
  refine ⟨?_, by decide, by decide, by decide, by decide⟩
  intro H
  exact H none 0 (some [0x03, 0x91, 0x11, 0x22]) 4 Check.InvalidInput
    Check.InvalidPayloadLength (by decide) (by decide) (by decide) (by decide) (by decide)
    (by decide)

/-- C6, amended: a rejected input gets the result code of the check that
rejects it, where invalid input and InvalidPayloadLength share
`LIBCEC_ERROR_INVALID_PARAM`, BroadcastMismatch and DirectedMismatch share
`LIBCEC_ERROR_OTHER`, and UnsupportedOpcode alone has
`LIBCEC_ERROR_NOT_SUPPORTED`. So two rejected inputs get the same code exactly
when their checks have the same code in this assignment, and two inputs
rejected by different checks always differ in the lines logged. -/
theorem C6_codes_amended (ma : Option (List Nat)) (la : Nat) (mb : Option (List Nat))
    (lb : Nat) (ca cb : Check)
    (hwa : well_formed_input ma la) (hwb : well_formed_input mb lb)
    (ha : rejected_by ma la = some ca) (hb : rejected_by mb lb = some cb) :
    (libcec_decode_message ma la).map Prod.fst = some ca.result_code
    ∧ (libcec_decode_message mb lb).map Prod.fst = some cb.result_code
    ∧ ((libcec_decode_message ma la).map Prod.fst = (libcec_decode_message mb lb).map Prod.fst
        ↔ ca.result_code = cb.result_code)
    ∧ (ca.result_code = cb.result_code ↔
        (ca = cb
          ∨ (ca = Check.InvalidInput ∧ cb = Check.InvalidPayloadLength)
          ∨ (ca = Check.InvalidPayloadLength ∧ cb = Check.InvalidInput)
          ∨ (ca = Check.BroadcastMismatch ∧ cb = Check.DirectedMismatch)
          ∨ (ca = Check.DirectedMismatch ∧ cb = Check.BroadcastMismatch)))
    ∧ (ca ≠ cb →
        (libcec_decode_message ma la).map Prod.snd
          ≠ (libcec_decode_message mb lb).map Prod.snd) := by
  obtain ⟨oa, hda⟩ := decode_of_rejected ma la ca hwa ha
  obtain ⟨ob, hdb⟩ := decode_of_rejected mb lb cb hwb hb
  rw [hda, hdb]
  refine ⟨rfl, rfl, ?_, ?_, ?_⟩
  · simp
  · cases ca <;> cases cb <;> decide
  · intro hne
    cases ca <;> cases cb <;> simp [Check.warning] at hne ⊢

set_option maxRecDepth 100000 in
/-- C6, amended, at a NULL input and at `[0x0F, 0x8C]`: the codes 1 and 2
differ. -/
theorem C6_codes_amended_witness :
    (libcec_decode_message none 0).map Prod.fst = some LIBCEC_ERROR_INVALID_PARAM
    ∧ (libcec_decode_message (some [0x0F, 0x8C]) 2).map Prod.fst = some LIBCEC_ERROR_OTHER :=
  have h := C6_codes_amended none 0 (some [0x0F, 0x8C]) 2 Check.InvalidInput
    Check.BroadcastMismatch (by decide) (by decide) (by decide) (by decide)
  ⟨h.1, h.2.1⟩

/-! ## Properties of the request builders and of `rx_handler` -/

/-- The destination nibble of a header byte built from two nibbles. -/
theorem header_destination (i d : Nat) (hd : d < 16) : ((i <<< 4) ||| d) &&& 0x0F = d := by
  have h1 : (i <<< 4) ||| d = 2 ^ 4 * i + d := by
    rw [Nat.shiftLeft_eq, Nat.mul_comm]
    exact (Nat.mul_add_lt_is_or (show d < 2 ^ 4 from hd) i).symm
  have h2 : ∀ x : Nat, x &&& 0x0F = x % 16 := fun x =>
    Nat.and_pow_two_sub_one_eq_mod x 4
  rw [h1, h2]
  omega

/-- The initiator nibble of a header byte built from two nibbles. -/
theorem header_initiator (i d : Nat) (hd : d < 16) : ((i <<< 4) ||| d) >>> 4 = i := by
  have h1 : (i <<< 4) ||| d = 2 ^ 4 * i + d := by
    rw [Nat.shiftLeft_eq, Nat.mul_comm]
    exact (Nat.mul_add_lt_is_or (show d < 2 ^ 4 from hd) i).symm
  rw [h1, Nat.shiftRight_eq_div_pow]
  omega

/-- Narrowing a natural number to a byte takes it modulo 256. -/
theorem to_u8_natCast (n : Nat) : to_u8 (n : Int) = n % 256 := by
  unfold to_u8
  omega

/-- A call of `cmd_tx` hands exactly its request to the driver. -/
theorem cmd_tx_transmitted (io : cec_tx_data → Int) (ctx : cec_ctx) (tx : cec_tx_data) :
    (cmd_tx io ctx tx).transmitted = [tx] := by
  unfold cmd_tx
  by_cases h : io tx ≠ 1
  · rw [if_pos h]
  · rw [if_neg h]
    split <;> rfl

/-- The request handed to the driver by `send_feature_abort` is the one it
built. -/
theorem send_feature_abort_transmitted (io : cec_tx_data → Int) (ctx : cec_ctx)
    (dest_id opcode reason : Int) :
    (send_feature_abort io ctx dest_id opcode reason).transmitted
      = [feature_abort_request ctx dest_id opcode reason] := by
  unfold send_feature_abort
  exact cmd_tx_transmitted io ctx _

set_option maxRecDepth 100000 in
/-- C7 as stated fails: a feature-abort built for destination 15 is
serialised with destination nibble 0xF, and the decoder rejects it, because
FEATURE_ABORT (0x00) is a directed-only opcode. -/
theorem C7_feature_abort_roundtrip_counterexample :
    ¬ (∀ (ctx : cec_ctx) (d op r : Nat), ctx.dev.device_id < 16 → d < 16 → op < 256 →
        r < 256 →
        (libcec_decode_message (some (tx_wire (feature_abort_request ctx d op r))) 4).map
          Prod.fst = some LIBCEC_SUCCESS)
    ∧ tx_wire (feature_abort_request (main_ctx 3 0x1200) 15 0x8C 0) = [0x3F, 0x00, 0x8C, 0x00]
    ∧ libcec_decode_message (some [0x3F, 0x00, 0x8C, 0x00]) 4
        = some (LIBCEC_ERROR_OTHER, [LogLine.broadcast_as_directed 0x00]) := by
  refine ⟨?_, by decide, by decide⟩
  intro H
  have h := H (main_ctx 3 0x1200) 15 0x8C 0 (by decide) (by decide) (by decide) (by decide)
  exact absurd h (by decide)

/-- C7, amended: for every initiator `i` in 0..15, every destination `d` in
0..14 and all bytes `op` and `r`, the request built by `send_feature_abort`
has opcode 0x00, `tx_count` 2 and operands `[op, r]`, its wire bytes are
`[(i<<4)|d, 0x00, op, r]`, and the decoder accepts them as a "Feature Abort"
frame from `i` to `d` with operands `[op, r]`. The request fields are one byte
wide, so in general the device id, `op` and `r` enter the request modulo 256;
the last part states the round trip for values that fit a byte. -/
theorem C7_feature_abort_roundtrip_amended (io : cec_tx_data → Int) (ctx : cec_ctx)
    (d op r : Nat) (hd : d < 15) :
    (send_feature_abort io ctx d op r).transmitted = [feature_abort_request ctx d op r]
    ∧ (feature_abort_request ctx d op r).tx_cmd = 0x00
    ∧ (feature_abort_request ctx d op r).tx_count = 2
    ∧ tx_operands (feature_abort_request ctx d op r) = [op % 256, r % 256]
    ∧ tx_wire (feature_abort_request ctx d op r)
        = [((ctx.dev.device_id % 256) <<< 4) ||| d, 0x00, op % 256, r % 256]
    ∧ libcec_decode_message (some (tx_wire (feature_abort_request ctx d op r))) 4
        = some (LIBCEC_SUCCESS,
            [LogLine.decoded (ctx.dev.device_id % 256) d "Feature Abort",
             LogLine.buffer_hex [0x00, op % 256, r % 256]])
    ∧ (ctx.dev.device_id < 256 → op < 256 → r < 256 →
        tx_operands (feature_abort_request ctx d op r) = [op, r]
        ∧ tx_wire (feature_abort_request ctx d op r)
            = [(ctx.dev.device_id <<< 4) ||| d, 0x00, op, r]
        ∧ libcec_decode_message (some (tx_wire (feature_abort_request ctx d op r))) 4
            = some (LIBCEC_SUCCESS,
                [LogLine.decoded ctx.dev.device_id d "Feature Abort",
                 LogLine.buffer_hex [0x00, op, r]])) := by
  have hops : tx_operands (feature_abort_request ctx d op r) = [op % 256, r % 256] := by
    show [to_u8 (op : Int), to_u8 (r : Int)] = _
    rw [to_u8_natCast, to_u8_natCast]
  have hw : tx_wire (feature_abort_request ctx d op r)
      = [((ctx.dev.device_id % 256) <<< 4) ||| d, 0x00, op % 256, r % 256] := by
    show [(to_u8 (ctx.dev.device_id : Int) <<< 4) ||| to_u8 (d : Int), 0x00,
      to_u8 (op : Int), to_u8 (r : Int)] = _
    rw [to_u8_natCast, to_u8_natCast, to_u8_natCast, to_u8_natCast,
      Nat.mod_eq_of_lt (show d < 256 by omega)]
  have hdecode : libcec_decode_message (some (tx_wire (feature_abort_request ctx d op r))) 4
      = some (LIBCEC_SUCCESS,
          [LogLine.decoded (ctx.dev.device_id % 256) d "Feature Abort",
           LogLine.buffer_hex [0x00, op % 256, r % 256]]) := by
    rw [hw]
    have hdec := decode_frame (((ctx.dev.device_id % 256) <<< 4) ||| d) 0x00
      [op % 256, r % 256] (by decide)
    have hl : [op % 256, r % 256].length + 2 = 4 := rfl
    rw [hl] at hdec
    rw [hdec, header_destination _ d (by omega), header_initiator _ d (by omega)]
    have hp : msg_props.getD 0x00 0 = 0x22 := rfl
    have hm : msg_min_max.getD (0x22 &&& 0x1F) (0, 0) = (2, 2) := rfl
    have ht : msg_description.getD (msg_index.getD 0x00 0) "" = "Feature Abort" := rfl
    rw [hp, hm, ht]
    have hne : d ≠ 15 := by omega
    simp [hne]
  refine ⟨send_feature_abort_transmitted io ctx d op r, rfl, rfl, hops, hw, hdecode, ?_⟩
  intro hi hop hr
  rw [Nat.mod_eq_of_lt hop, Nat.mod_eq_of_lt hr] at hops
  rw [Nat.mod_eq_of_lt hi, Nat.mod_eq_of_lt hop, Nat.mod_eq_of_lt hr] at hw hdecode
  exact ⟨hops, hw, hdecode⟩

set_option maxRecDepth 100000 in
/-- C7, amended, at the reply of `rx_handler` to a request from the TV:
initiator 3, destination 0, aborted opcode 0x8C, reason 0. -/
theorem C7_feature_abort_roundtrip_amended_witness :
    libcec_decode_message (some [0x30, 0x00, 0x8C, 0x00]) 4
      = some (LIBCEC_SUCCESS,
          [LogLine.decoded 3 0 "Feature Abort", LogLine.buffer_hex [0x00, 0x8C, 0x00]]) :=
  (C7_feature_abort_roundtrip_amended (fun _ => 1) (main_ctx 3 0x1200) 0 0x8C 0
    (by decide)).2.2.2.2.2.1

/-- C8 as stated fails: with `phy_addr = 0x1200` and initiator 3 the operands
of the Active Source request are not `[0x12, 0x00]`. Bytes 0 and 1 of the
stored field are `[0x00, 0x12]` on a little-endian machine and `[0x00, 0x00]`
on a big-endian one. -/
theorem C8_active_source_operands_counterexample :
    tx_operands (active_source_request ByteOrder.little (main_ctx 3 0x1200)) = [0x00, 0x12]
    ∧ tx_operands (active_source_request ByteOrder.big (main_ctx 3 0x1200)) = [0x00, 0x00]
    ∧ tx_operands (active_source_request ByteOrder.little (main_ctx 3 0x1200))
        ≠ [(0x1200 >>> 8) &&& 0xFF, 0x1200 &&& 0xFF]
    ∧ tx_operands (active_source_request ByteOrder.big (main_ctx 3 0x1200))
        ≠ [(0x1200 >>> 8) &&& 0xFF, 0x1200 &&& 0xFF] := by
  refine ⟨by decide, by decide, by decide, by decide⟩

/-- C8, amended: the Active Source request built in `main` has destination
0xF, initiator the registered device id, opcode 0x82, `tx_count` 2 and
`retry_count` 5; its two operands are bytes 0 and 1 of the stored `phy_addr`
in memory order, which on a little-endian machine are `phy_addr & 0xFF` and
`(phy_addr >> 8) & 0xFF`. The request is the one handed to the driver, and
its wire bytes are accepted by the decoder as a broadcast "Active Source"
frame; for `phy_addr = 0x1200` and initiator 3 the operands are
`[0x00, 0x12]` on a little-endian machine. The initiator field is one byte
wide: it holds the device id modulo 256, which is the device id itself
whenever that fits a byte, as the 3 that `main` registers does. -/
theorem C8_active_source_amended (order : ByteOrder) (io : cec_tx_data → Int)
    (ctx : cec_ctx) :
    (main_active_source order io ctx).transmitted = [active_source_request order ctx]
    ∧ (active_source_request order ctx).dest_device_id = 0xF
    ∧ (active_source_request order ctx).initiator_device_id = ctx.dev.device_id % 256
    ∧ (ctx.dev.device_id < 256 →
        (active_source_request order ctx).initiator_device_id = ctx.dev.device_id)
    ∧ (active_source_request order ctx).tx_cmd = 0x82
    ∧ (active_source_request order ctx).tx_count = 2
    ∧ (active_source_request order ctx).retry_count = 5
    ∧ tx_operands (active_source_request order ctx)
        = [stored_byte order ctx.dev.phy_addr 0, stored_byte order ctx.dev.phy_addr 1]
    ∧ tx_operands (active_source_request ByteOrder.little ctx)
        = [ctx.dev.phy_addr &&& 0xFF, (ctx.dev.phy_addr >>> 8) &&& 0xFF]
    ∧ libcec_decode_message (some (tx_wire (active_source_request order ctx))) 4
        = some (LIBCEC_SUCCESS,
            [LogLine.decoded (ctx.dev.device_id % 256) 0xF "Active Source",
             LogLine.buffer_hex [0x82, stored_byte order ctx.dev.phy_addr 0,
               stored_byte order ctx.dev.phy_addr 1]])
    ∧ tx_operands (active_source_request ByteOrder.little (main_ctx 3 0x1200))
        = [0x00, 0x12]
    ∧ (active_source_request ByteOrder.little (main_ctx 3 0x1200)).initiator_device_id = 3
    ∧ libcec_decode_message
        (some (tx_wire (active_source_request ByteOrder.little (main_ctx 3 0x1200)))) 4
        = some (LIBCEC_SUCCESS,
            [LogLine.decoded 3 0xF "Active Source", LogLine.buffer_hex [0x82, 0x00, 0x12]]) := by
  have hinit : (active_source_request order ctx).initiator_device_id
      = ctx.dev.device_id % 256 := to_u8_natCast _
  have hw : tx_wire (active_source_request order ctx)
      = [((ctx.dev.device_id % 256) <<< 4) ||| 0xF, 0x82, stored_byte order ctx.dev.phy_addr 0,
          stored_byte order ctx.dev.phy_addr 1] := by
    show [(to_u8 (ctx.dev.device_id : Int) <<< 4) ||| 0xF, 0x82,
      stored_byte order ctx.dev.phy_addr 0, stored_byte order ctx.dev.phy_addr 1] = _
    rw [to_u8_natCast]
  have hgen : ∀ (order2 : ByteOrder) (ctx2 : cec_ctx),
      tx_wire (active_source_request order2 ctx2)
        = [((ctx2.dev.device_id % 256) <<< 4) ||| 0xF, 0x82,
            stored_byte order2 ctx2.dev.phy_addr 0, stored_byte order2 ctx2.dev.phy_addr 1] →
      libcec_decode_message (some (tx_wire (active_source_request order2 ctx2))) 4
        = some (LIBCEC_SUCCESS,
            [LogLine.decoded (ctx2.dev.device_id % 256) 0xF "Active Source",
             LogLine.buffer_hex [0x82, stored_byte order2 ctx2.dev.phy_addr 0,
               stored_byte order2 ctx2.dev.phy_addr 1]]) := by
    intro order2 ctx2 hw2
    rw [hw2]
    have hdec := decode_frame (((ctx2.dev.device_id % 256) <<< 4) ||| 0xF) 0x82
      [stored_byte order2 ctx2.dev.phy_addr 0, stored_byte order2 ctx2.dev.phy_addr 1]
      (by decide)
    have hl : [stored_byte order2 ctx2.dev.phy_addr 0,
        stored_byte order2 ctx2.dev.phy_addr 1].length + 2 = 4 := rfl
    rw [hl] at hdec
    rw [hdec, header_destination _ 0xF (by decide), header_initiator _ 0xF (by decide)]
    have hp : msg_props.getD 0x82 0 = 0x42 := by decide
    have hm : msg_min_max.getD (0x42 &&& 0x1F) (0, 0) = (2, 2) := rfl
    have ht : msg_description.getD (msg_index.getD 0x82 0) "" = "Active Source" := by decide
    rw [hp, hm, ht]
    simp
  refine ⟨cmd_tx_transmitted io ctx _, rfl, hinit, ?_, rfl, rfl, rfl, rfl, ?_, hgen order ctx hw,
    by decide, by decide, hgen ByteOrder.little (main_ctx 3 0x1200) rfl⟩
  · intro hlt
    rw [hinit, Nat.mod_eq_of_lt hlt]
  · show [stored_byte ByteOrder.little ctx.dev.phy_addr 0,
        stored_byte ByteOrder.little ctx.dev.phy_addr 1] = _
    simp [stored_byte]

/-- C9: for every successfully received frame with opcode
GIVE_DEVICE_VENDOR_ID (0x8C), `rx_handler` hands exactly one request to the
driver: the feature-abort to the sender, from the own device id, with
`tx_cmd = 0x00`, `tx_count = 2`, operands `[0x8C, 0x00]` and
`retry_count = 5`. The address fields are one byte wide: they hold the
received initiator and the own device id modulo 256, which are the values
themselves whenever they fit a byte. -/
theorem C9_give_vendor_id_reply (rx : cec_rx_data) (io : cec_tx_data → Int) (ctx : cec_ctx)
    (hop : rx.rx_cmd = OPCODE_GIVE_DEVICE_VENDOR_ID) :
    ∃ tx, (rx_handler (0, rx) io ctx).transmitted = [tx]
      ∧ tx = feature_abort_request ctx rx.init_device_id OPCODE_GIVE_DEVICE_VENDOR_ID
          ABORT_REASON_UNRECOGNIZED_OPCODE
      ∧ tx.dest_device_id = rx.init_device_id % 256
      ∧ tx.initiator_device_id = ctx.dev.device_id % 256
      ∧ tx.tx_cmd = 0x00
      ∧ tx.tx_count = 2
      ∧ tx_operands tx = [0x8C, 0x00]
      ∧ tx.retry_count = 5
      ∧ tx.send_ping = 0
      ∧ (rx.init_device_id < 256 → tx.dest_device_id = rx.init_device_id)
      ∧ (ctx.dev.device_id < 256 → tx.initiator_device_id = ctx.dev.device_id) := by
  have hdest : (feature_abort_request ctx rx.init_device_id OPCODE_GIVE_DEVICE_VENDOR_ID
      ABORT_REASON_UNRECOGNIZED_OPCODE).dest_device_id = rx.init_device_id % 256 :=
    to_u8_natCast _
  have hinit : (feature_abort_request ctx rx.init_device_id OPCODE_GIVE_DEVICE_VENDOR_ID
      ABORT_REASON_UNRECOGNIZED_OPCODE).initiator_device_id = ctx.dev.device_id % 256 :=
    to_u8_natCast _
  refine ⟨feature_abort_request ctx rx.init_device_id OPCODE_GIVE_DEVICE_VENDOR_ID
    ABORT_REASON_UNRECOGNIZED_OPCODE, ?_, rfl, hdest, hinit, rfl, rfl, rfl, rfl, rfl, ?_, ?_⟩
  · unfold rx_handler cmd_rx
    have h0 : ¬ (rx.rx_cmd = OPCODE_FEATURE_ABORT) := by rw [hop]; decide
    simp only [if_true, if_neg h0, if_pos hop]
    rw [hop]
    exact send_feature_abort_transmitted io ctx _ _ _
  · intro hlt
    rw [hdest, Nat.mod_eq_of_lt hlt]
  · intro hlt
    rw [hinit, Nat.mod_eq_of_lt hlt]

/-- C9 at a concrete frame: GIVE_DEVICE_VENDOR_ID received from the TV
(address 0) by device 3. -/
theorem C9_give_vendor_id_reply_witness :
    ∃ tx, (rx_handler (0, rx_give_device_vendor_id 0 3) (fun _ => 1)
          (main_ctx 3 0x1200)).transmitted = [tx]
      ∧ tx = feature_abort_request (main_ctx 3 0x1200) 0 OPCODE_GIVE_DEVICE_VENDOR_ID
          ABORT_REASON_UNRECOGNIZED_OPCODE
      ∧ tx.dest_device_id = 0
      ∧ tx.initiator_device_id = 3
      ∧ tx.tx_cmd = 0x00
      ∧ tx.tx_count = 2
      ∧ tx_operands tx = [0x8C, 0x00]
      ∧ tx.retry_count = 5
      ∧ tx.send_ping = 0 :=
  let ⟨tx, h1, h2, h3, h4, h5, h6, h7, h8, h9, _, _⟩ :=
    C9_give_vendor_id_reply (rx_give_device_vendor_id 0 3) (fun _ => 1) (main_ctx 3 0x1200) rfl
  ⟨tx, h1, h2, h3, h4, h5, h6, h7, h8, h9⟩

set_option maxRecDepth 100000 in
/-- C10 as stated fails: a GIVE_DEVICE_VENDOR_ID frame received with
destination 0xF has wire bytes `[0x0F, 0x8C]`, which the decoder rejects as a
broadcast mismatch, and `rx_handler` still hands a feature-abort to the
driver. -/
theorem C10_reply_only_if_decoded_counterexample :
    ¬ (∀ (rx : cec_rx_data) (io : cec_tx_data → Int) (ctx : cec_ctx),
        (libcec_decode_message (some (rx_wire rx)) (rx_wire rx).length).map Prod.fst
          ≠ some LIBCEC_SUCCESS →
        (rx_handler (0, rx) io ctx).transmitted = [])
    ∧ rx_wire (rx_give_device_vendor_id 0 0xF) = [0x0F, 0x8C]
    ∧ libcec_decode_message (some [0x0F, 0x8C]) 2
        = some (LIBCEC_ERROR_OTHER, [LogLine.broadcast_as_directed 0x8C])
    ∧ (rx_handler (0, rx_give_device_vendor_id 0 0xF) (fun _ => 1)
          (main_ctx 3 0x1200)).transmitted
        = [feature_abort_request (main_ctx 3 0x1200) 0 0x8C 0] := by
  have ht : (rx_handler (0, rx_give_device_vendor_id 0 0xF) (fun _ => 1)
      (main_ctx 3 0x1200)).transmitted
        = [feature_abort_request (main_ctx 3 0x1200) 0 0x8C 0] := rfl
  refine ⟨?_, by decide, by decide, ht⟩
  intro H
  have h := H (rx_give_device_vendor_id 0 0xF) (fun _ => 1) (main_ctx 3 0x1200) (by decide)
  rw [ht] at h
  exact absurd h (by simp)

/-- C10, amended: `rx_handler` never consults the decoder; what it hands to
the driver depends on the receive result and the opcode alone. It transmits
exactly when the receive succeeded and the opcode is GIVE_DEVICE_VENDOR_ID
(0x8C), and then exactly the feature-abort to the sender, whatever the
destination and operands of the received frame, so also for a frame the
decoder rejects; in every other case it transmits nothing. -/
theorem C10_reply_by_opcode_amended (recv : Int × cec_rx_data) (io : cec_tx_data → Int)
    (ctx : cec_ctx) :
    (rx_handler recv io ctx).transmitted =
      if recv.1 = 0 ∧ recv.2.rx_cmd = OPCODE_GIVE_DEVICE_VENDOR_ID then
        [feature_abort_request ctx recv.2.init_device_id OPCODE_GIVE_DEVICE_VENDOR_ID
          ABORT_REASON_UNRECOGNIZED_OPCODE]
      else [] := by
  obtain ⟨ret, rx⟩ := recv
  unfold rx_handler cmd_rx
  dsimp only
  by_cases hret : ret = 0
  · rw [if_pos hret]
    by_cases h0 : rx.rx_cmd = OPCODE_FEATURE_ABORT
    · have h1 : ¬ (ret = 0 ∧ rx.rx_cmd = OPCODE_GIVE_DEVICE_VENDOR_ID) := by
        intro hc
        have h2 := hc.2
        rw [h0] at h2
        exact absurd h2 (by decide)
      rw [if_pos h0, if_neg h1]
      by_cases h2 : rx.rx_count ≠ 2
      · rw [if_pos h2]
      · rw [if_neg h2]
        split <;> rfl
    · rw [if_neg h0]
      by_cases h1 : rx.rx_cmd = OPCODE_GIVE_DEVICE_VENDOR_ID
      · rw [if_pos h1, if_pos ⟨hret, h1⟩, h1]
        exact send_feature_abort_transmitted io ctx _ _ _
      · have h2 : ¬ (ret = 0 ∧ rx.rx_cmd = OPCODE_GIVE_DEVICE_VENDOR_ID) := fun hc => h1 hc.2
        rw [if_neg h1, if_neg h2]
        by_cases h3 : rx.rx_cmd = OPCODE_DEVICE_VENDOR_ID ∨ rx.rx_cmd = OPCODE_VENDOR_COMMAND
        · rw [if_pos h3]
        · rw [if_neg h3]
          split <;> rfl
  · have h2 : ¬ (ret = 0 ∧ rx.rx_cmd = OPCODE_GIVE_DEVICE_VENDOR_ID) := fun hc => hret hc.1
    rw [if_neg hret, if_neg h2]

/-- C11 as stated fails: a FEATURE_ABORT received with one operand does not
make `rx_handler` return: `assert(rx_cmd.rx_count == 2)` fails and stops the
process. -/
theorem C11_malformed_feature_abort_counterexample :
    ¬ (∀ (rx : cec_rx_data) (io : cec_tx_data → Int) (ctx : cec_ctx),
        rx.rx_cmd = OPCODE_FEATURE_ABORT → rx.rx_count ≠ 2 →
        ∃ ret, (rx_handler (0, rx) io ctx).exit = Exit.returned ret)
    ∧ (rx_handler (0, rx_frame 0 3 0x00 [0x8C]) (fun _ => 1) (main_ctx 3 0x1200)).exit
        = Exit.assert_failed := by
  have he : (rx_handler (0, rx_frame 0 3 0x00 [0x8C]) (fun _ => 1) (main_ctx 3 0x1200)).exit
      = Exit.assert_failed := rfl
  refine ⟨?_, he⟩
  intro H
  obtain ⟨ret, hret⟩ := H (rx_frame 0 3 0x00 [0x8C]) (fun _ => 1) (main_ctx 3 0x1200) rfl
    (by decide)
  rw [he] at hret
  exact absurd hret (by simp)

/-- C11, amended: for every successfully received FEATURE_ABORT frame whose
operand count is not 2, `rx_handler` does not return to its caller: the
assertion `rx_count == 2` fails and stops the process. Before that it
transmits nothing, prints nothing and reads no operand (the outcome is the
same whatever the operand array holds). -/
theorem C11_malformed_feature_abort_amended (rx : cec_rx_data) (io : cec_tx_data → Int)
    (ctx : cec_ctx) (hop : rx.rx_cmd = OPCODE_FEATURE_ABORT) (hcount : rx.rx_count ≠ 2) :
    (rx_handler (0, rx) io ctx).exit = Exit.assert_failed
    ∧ (rx_handler (0, rx) io ctx).transmitted = []
    ∧ (rx_handler (0, rx) io ctx).out = []
    ∧ ∀ operand : Nat → Nat,
        rx_handler (0, { rx with rx_operand := operand }) io ctx = rx_handler (0, rx) io ctx := by
  have h : ∀ operand : Nat → Nat,
      rx_handler (0, { rx with rx_operand := operand }) io ctx
        = { exit := Exit.assert_failed, transmitted := [], out := [] } := by
    intro operand
    unfold rx_handler cmd_rx
    dsimp only
    rw [if_pos rfl, if_pos hop, if_pos hcount]
  have h0 : rx_handler (0, rx) io ctx
      = { exit := Exit.assert_failed, transmitted := [], out := [] } := h rx.rx_operand
  refine ⟨by rw [h0], by rw [h0], by rw [h0], ?_⟩
  intro operand
  rw [h operand, h0]

/-- C11, amended, at a FEATURE_ABORT carrying the single operand 0x8C. -/
theorem C11_malformed_feature_abort_amended_witness :
    (rx_handler (0, rx_frame 0 3 0x00 [0x8C]) (fun _ => 1) (main_ctx 3 0x1200)).exit
        = Exit.assert_failed
    ∧ (rx_handler (0, rx_frame 0 3 0x00 [0x8C]) (fun _ => 1) (main_ctx 3 0x1200)).transmitted
        = [] :=
  have h := C11_malformed_feature_abort_amended (rx_frame 0 3 0x00 [0x8C]) (fun _ => 1)
    (main_ctx 3 0x1200) rfl (by decide)
  ⟨h.1, h.2.1⟩

/-! ## The 64-byte buffer of `dump_rx_cmd` and `dump_tx_cmd` -/

/-- The format `"0x%02X, "` yields six characters for a byte. -/
theorem fmt_operand_length (v : Nat) (hv : v < 256) : (fmt_operand v).length = 6 := by
  simp [fmt_operand, fmt_02X, hv]

/-- While every call of `snprintf` starts at an offset of at most 64, the loop
runs to its end and advances `p` by six per operand. -/
theorem dump_loop_offset (operand : Nat → Nat) (hb : ∀ j, operand j < 256) :
    ∀ (todo i off : Nat) (text : List Char), off + 6 * todo ≤ 70 →
      (dump_loop operand todo i off text).map Prod.fst = some (off + 6 * todo) := by
  intro todo
  induction todo with
  | zero => intro i off text _; rfl
  | succ n ih =>
    intro i off text h
    have h1 : ¬ 64 < off := by omega
    unfold dump_loop
    simp only [if_neg h1, fmt_operand_length _ (hb i)]
    rw [ih (i + 1) (off + 6) _ (by omega)]
    congr 1
    omega

/-- Once a call of `snprintf` starts beyond offset 64, the loop writes outside
the buffer. -/
theorem dump_loop_overflow (operand : Nat → Nat) (hb : ∀ j, operand j < 256) :
    ∀ (todo i off : Nat) (text : List Char), todo ≠ 0 → 70 < off + 6 * todo →
      dump_loop operand todo i off text = none := by
  intro todo
  induction todo with
  | zero => intro i off text h; exact absurd rfl h
  | succ n ih =>
    intro i off text _ h
    unfold dump_loop
    by_cases h1 : 64 < off
    · rw [if_pos h1]
    · simp only [if_neg h1, fmt_operand_length _ (hb i)]
      exact ih (i + 1) (off + 6) _ (by omega) (by omega)

/-- The formatting of `count` byte operands stays inside `buf` exactly when
there are at most ten of them. -/
theorem dump_buf_in_bounds_iff (operand : Nat → Nat) (hb : ∀ j, operand j < 256) (count : Nat) :
    dump_buf count operand ≠ none ↔ count ≤ 10 := by
  unfold dump_buf
  by_cases h0 : count = 0
  · subst h0
    simp
  · rw [if_pos h0]
    by_cases h1 : count ≤ 11
    · have hoff := dump_loop_offset operand hb count 0 0 [] (by omega)
      obtain ⟨⟨off, text⟩, hloop, hfst⟩ := Option.map_eq_some'.1 hoff
      simp only at hfst
      rw [hloop]
      subst hfst
      by_cases h2 : count ≤ 10
      · have h3 : 2 ≤ 0 + 6 * count ∧ 0 + 6 * count - 2 < 64 := by omega
        simp only [if_pos h3]
        simp [h2]
      · have h3 : ¬ (2 ≤ 0 + 6 * count ∧ 0 + 6 * count - 2 < 64) := by omega
        simp only [if_neg h3]
        simp [h2]
    · rw [dump_loop_overflow operand hb count 0 0 [] h0 (by omega)]
      simp
      omega

/-! ## More properties of `rx_handler` and of the request builders -/

/-- The default path of `rx_handler`, for an opcode without a case of its
own: the frame is dumped and nothing is transmitted. -/
theorem rx_handler_default (rx : cec_rx_data) (io : cec_tx_data → Int) (ctx : cec_ctx)
    (h0 : rx.rx_cmd ≠ OPCODE_FEATURE_ABORT) (h1 : rx.rx_cmd ≠ OPCODE_GIVE_DEVICE_VENDOR_ID)
    (h2 : ¬ (rx.rx_cmd = OPCODE_DEVICE_VENDOR_ID ∨ rx.rx_cmd = OPCODE_VENDOR_COMMAND)) :
    rx_handler (0, rx) io ctx =
      match dump_rx_cmd rx with
      | none => { exit := Exit.out_of_bounds, transmitted := [], out := [] }
      | some line => { exit := Exit.returned 0, transmitted := [], out := [line] } := by
  unfold rx_handler cmd_rx
  dsimp only
  rw [if_pos rfl, if_neg h0, if_neg h1, if_neg h2]

set_option maxRecDepth 100000 in
/-- C12, evaluated: SET_OSD_NAME (0x47) received with eleven operands is a
frame the decoder accepts, and `rx_handler` does not return 0 on it: the
default path calls `dump_rx_cmd`, whose 64-byte buffer is overrun. What the
claim says does hold for DEVICE_VENDOR_ID and VENDOR_COMMAND, and on the
default path for frames of at most ten byte operands; nothing is transmitted
before the overrun either. -/
theorem C12_default_path_overruns_buffer :
    (rx_handler (0, rx_frame 0 3 0x47
        [0x4C, 0x69, 0x76, 0x69, 0x6E, 0x67, 0x20, 0x52, 0x6F, 0x6F, 0x6D])
        (fun _ => 1) (main_ctx 3 0x1200)).exit = Exit.out_of_bounds
    ∧ (libcec_decode_message (some (rx_wire (rx_frame 0 3 0x47
        [0x4C, 0x69, 0x76, 0x69, 0x6E, 0x67, 0x20, 0x52, 0x6F, 0x6F, 0x6D]))) 13).map Prod.fst
        = some LIBCEC_SUCCESS
    ∧ (∀ (rx : cec_rx_data) (io : cec_tx_data → Int) (ctx : cec_ctx),
        rx.rx_cmd = OPCODE_DEVICE_VENDOR_ID ∨ rx.rx_cmd = OPCODE_VENDOR_COMMAND →
        rx_handler (0, rx) io ctx = { exit := Exit.returned 0, transmitted := [], out := [] })
    ∧ (∀ (rx : cec_rx_data) (io : cec_tx_data → Int) (ctx : cec_ctx),
        rx.rx_cmd ≠ OPCODE_FEATURE_ABORT → rx.rx_cmd ≠ OPCODE_GIVE_DEVICE_VENDOR_ID →
        (rx_handler (0, rx) io ctx).transmitted = []
        ∧ ((∀ j, rx.rx_operand j < 256) → rx.rx_count ≤ 10 →
            (rx_handler (0, rx) io ctx).exit = Exit.returned 0)
        ∧ ((∀ j, rx.rx_operand j < 256) → 10 < rx.rx_count →
            rx.rx_cmd ≠ OPCODE_DEVICE_VENDOR_ID → rx.rx_cmd ≠ OPCODE_VENDOR_COMMAND →
            (rx_handler (0, rx) io ctx).exit = Exit.out_of_bounds)) := by
  have hign : ∀ (rx : cec_rx_data) (io : cec_tx_data → Int) (ctx : cec_ctx),
      rx.rx_cmd = OPCODE_DEVICE_VENDOR_ID ∨ rx.rx_cmd = OPCODE_VENDOR_COMMAND →
      rx_handler (0, rx) io ctx = { exit := Exit.returned 0, transmitted := [], out := [] } := by
    intro rx io ctx h
    have h0 : rx.rx_cmd ≠ OPCODE_FEATURE_ABORT := by
      rcases h with h | h <;> rw [h] <;> decide
    have h1 : rx.rx_cmd ≠ OPCODE_GIVE_DEVICE_VENDOR_ID := by
      rcases h with h | h <;> rw [h] <;> decide
    unfold rx_handler cmd_rx
    dsimp only
    rw [if_pos rfl, if_neg h0, if_neg h1, if_pos h]
  refine ⟨by decide, by decide, hign, ?_⟩
  intro rx io ctx h0 h1
  by_cases h2 : rx.rx_cmd = OPCODE_DEVICE_VENDOR_ID ∨ rx.rx_cmd = OPCODE_VENDOR_COMMAND
  · rw [hign rx io ctx h2]
    refine ⟨rfl, fun _ _ => rfl, ?_⟩
    intro _ _ h3 h4
    rcases h2 with h2 | h2
    · exact absurd h2 h3
    · exact absurd h2 h4
  · rw [rx_handler_default rx io ctx h0 h1 h2]
    unfold dump_rx_cmd
    refine ⟨?_, ?_, ?_⟩
    · cases dump_buf rx.rx_count rx.rx_operand <;> rfl
    · intro hb hc
      have h3 := (dump_buf_in_bounds_iff rx.rx_operand hb rx.rx_count).2 hc
      cases hd : dump_buf rx.rx_count rx.rx_operand with
      | none => exact absurd hd h3
      | some buf => rfl
    · intro hb hc _ _
      have h3 : dump_buf rx.rx_count rx.rx_operand = none := by
        by_contra hne
        have := (dump_buf_in_bounds_iff rx.rx_operand hb rx.rx_count).1 hne
        omega
      rw [h3]

/-- C13: if the receive fails with a non-zero code `r`, `rx_handler` returns
`r` unchanged, transmits nothing and prints nothing, and its outcome does not
depend on the contents of the receive buffer. -/
theorem C13_receive_failure_propagates (r : Int) (rx : cec_rx_data) (io : cec_tx_data → Int)
    (ctx : cec_ctx) (hr : r ≠ 0) :
    (cmd_rx (r, rx) ctx).1 = r
    ∧ rx_handler (r, rx) io ctx = { exit := Exit.returned r, transmitted := [], out := [] }
    ∧ ∀ rx2 : cec_rx_data, rx_handler (r, rx2) io ctx = rx_handler (r, rx) io ctx := by
  have h : ∀ rx2 : cec_rx_data,
      rx_handler (r, rx2) io ctx = { exit := Exit.returned r, transmitted := [], out := [] } := by
    intro rx2
    unfold rx_handler cmd_rx
    dsimp only
    rw [if_neg hr]
  refine ⟨rfl, h rx, ?_⟩
  intro rx2
  rw [h rx2, h rx]

/-- C13 at a receive that failed with -1 and left a frame in the buffer that
would otherwise draw a reply. -/
theorem C13_receive_failure_propagates_witness :
    rx_handler (-1, rx_give_device_vendor_id 0 3) (fun _ => 1) (main_ctx 3 0x1200)
      = { exit := Exit.returned (-1), transmitted := [], out := [] } :=
  (C13_receive_failure_propagates (-1) (rx_give_device_vendor_id 0 3) (fun _ => 1)
    (main_ctx 3 0x1200) (by decide)).2.1

/-- C18, evaluated: a FEATURE_ABORT received with the two operands
`[0x8C, 0x05]` makes `rx_handler` read `ABORT_REASON[5]`, one entry past the
end of the five-entry table. The lookup is within the table exactly for the
reasons 0 to 4, where the text is printed and 0 is returned; reason 0x00
resolves to "Unrecognized opcode". -/
theorem C18_abort_reason_out_of_range :
    (rx_handler (0, rx_frame 0 3 0x00 [0x8C, 0x05]) (fun _ => 1) (main_ctx 3 0x1200)).exit
        = Exit.out_of_bounds
    ∧ ABORT_REASON.length = 5
    ∧ ABORT_REASON[5]? = none
    ∧ (∀ (rx : cec_rx_data) (io : cec_tx_data → Int) (ctx : cec_ctx),
        rx.rx_cmd = OPCODE_FEATURE_ABORT → rx.rx_count = 2 → 5 ≤ rx.rx_operand 1 →
        rx_handler (0, rx) io ctx
          = { exit := Exit.out_of_bounds, transmitted := [], out := [] })
    ∧ (∀ (rx : cec_rx_data) (io : cec_tx_data → Int) (ctx : cec_ctx),
        rx.rx_cmd = OPCODE_FEATURE_ABORT → rx.rx_count = 2 → rx.rx_operand 1 < 5 →
        rx_handler (0, rx) io ctx
          = { exit := Exit.returned 0, transmitted := [],
              out := [Output.feature_abort (rx.rx_operand 0) (rx.rx_operand 1)
                (ABORT_REASON.getD (rx.rx_operand 1) "")] })
    ∧ (rx_handler (0, rx_frame 0 3 0x00 [0x8C, 0x00]) (fun _ => 1) (main_ctx 3 0x1200)).out
        = [Output.feature_abort 0x8C 0x00 "Unrecognized opcode"] := by
  refine ⟨by decide, by decide, by decide, ?_, ?_, by decide⟩
  · intro rx io ctx hop hcount hreason
    have hnone : ABORT_REASON[rx.rx_operand 1]? = none :=
      List.getElem?_eq_none (by show 5 ≤ rx.rx_operand 1; exact hreason)
    unfold rx_handler cmd_rx
    dsimp only
    rw [if_pos rfl, if_pos hop, if_neg (not_not.2 hcount), hnone]
  · intro rx io ctx hop hcount hreason
    have hsome := lookup_getD ABORT_REASON (rx.rx_operand 1) ""
      (by show rx.rx_operand 1 < 5; exact hreason)
    unfold rx_handler cmd_rx
    dsimp only
    rw [if_pos rfl, if_pos hop, if_neg (not_not.2 hcount), hsome]

/-! ## More properties of the tables and of the decoder -/

set_option maxRecDepth 100000 in
/-- The index of an opcode is 0 exactly when both addressing bits are clear. -/
theorem msg_index_zero_iff : ∀ o < 256,
    (msg_index.getD o 0 = 0 ↔
      (msg_props.getD o 0 &&& 0x20 = 0 ∧ msg_props.getD o 0 &&& 0x40 = 0)) := by
  decide

set_option maxRecDepth 100000 in
/-- Only entry 0 of `msg_description` is the sentinel. -/
theorem msg_description_sentinel_iff : ∀ k < 70,
    (msg_description.getD k "" = "*Unsupported Opcode*" ↔ k = 0) := by
  decide

/-- C14: for every opcode `o` in 0..255 both lookups of
`msg_description[msg_index[o]]` are within their tables, and the description
is the sentinel "*Unsupported Opcode*" (its index being 0) if and only if
`msg_props[o]` has both the directed and the broadcast bit clear. So a frame
the decoder accepts is logged under a real name, and an opcode the decoder
rejects as unsupported has the sentinel. -/
theorem C14_description_sentinel (o : Nat) (ho : o < 256) :
    msg_index[o]? = some (msg_index.getD o 0)
    ∧ msg_description[msg_index.getD o 0]?
        = some (msg_description.getD (msg_index.getD o 0) "")
    ∧ (msg_description.getD (msg_index.getD o 0) "" = "*Unsupported Opcode*"
        ↔ msg_index.getD o 0 = 0)
    ∧ (msg_description.getD (msg_index.getD o 0) "" = "*Unsupported Opcode*"
        ↔ (msg_props.getD o 0 &&& 0x20 = 0 ∧ msg_props.getD o 0 &&& 0x40 = 0))
    ∧ (∀ (h : Nat) (rest : List Nat),
        ((libcec_decode_message (some (h :: o :: rest)) (rest.length + 2)).map Prod.fst
            = some LIBCEC_SUCCESS →
          libcec_decode_message (some (h :: o :: rest)) (rest.length + 2)
              = some (LIBCEC_SUCCESS,
                  [LogLine.decoded (h >>> 4) (h &&& 0x0F)
                     (msg_description.getD (msg_index.getD o 0) ""),
                   LogLine.buffer_hex (o :: rest)])
            ∧ msg_description.getD (msg_index.getD o 0) "" ≠ "*Unsupported Opcode*")
        ∧ ((libcec_decode_message (some (h :: o :: rest)) (rest.length + 2)).map Prod.fst
            = some LIBCEC_ERROR_NOT_SUPPORTED →
          msg_description.getD (msg_index.getD o 0) "" = "*Unsupported Opcode*")) := by
  have hk := msg_index_lt o ho
  have h1 := msg_description_sentinel_iff _ hk
  have h2 := msg_index_zero_iff o ho
  have h60 := and_0x60_eq_zero _ (msg_props_lt o ho)
  refine ⟨lookup_getD msg_index o 0 (by rw [msg_index_length]; exact ho),
    lookup_getD msg_description _ "" (by rw [msg_description_length]; exact hk),
    h1, h1.trans h2, ?_⟩
  intro h rest
  rw [decode_frame h o rest ho]
  generalize msg_description.getD (msg_index.getD o 0) "" = text at h1 ⊢
  generalize msg_index.getD o 0 = k at h1 h2
  generalize msg_props.getD o 0 = p at h2 h60 ⊢
  generalize msg_min_max.getD (p &&& 0x1F) (0, 0) = bounds
  by_cases c1 : p &&& 0x60 = 0
  · rw [if_pos c1]
    refine ⟨fun hc => absurd hc (by simp [LIBCEC_ERROR_NOT_SUPPORTED, LIBCEC_SUCCESS]), ?_⟩
    intro _
    exact (h1.trans h2).2 (h60.1 c1)
  · rw [if_neg c1]
    have hreal : text ≠ "*Unsupported Opcode*" := fun hc => c1 (h60.2 ((h1.trans h2).1 hc))
    split_ifs <;>
      simp [hreal, LIBCEC_ERROR_NOT_SUPPORTED, LIBCEC_SUCCESS, LIBCEC_ERROR_OTHER,
        LIBCEC_ERROR_INVALID_PARAM]

set_option maxRecDepth 100000 in
/-- C14 at two opcodes: GIVE_DEVICE_VENDOR_ID (0x8C) has a real name, the
unsupported opcode 0x01 has the sentinel. -/
theorem C14_description_sentinel_witness :
    msg_description[msg_index.getD 0x8C 0]? = some "Give Device Vendor ID"
    ∧ msg_description[msg_index.getD 0x01 0]? = some "*Unsupported Opcode*" :=
  ⟨(C14_description_sentinel 0x8C (by decide)).2.1.trans (by decide),
   (C14_description_sentinel 0x01 (by decide)).2.1.trans (by decide)⟩

/-- A frame the decoder accepts has a payload no longer than the upper bound
of the length class of its opcode. -/
theorem decode_success_length (h o : Nat) (rest : List Nat) (ho : o < 256)
    (hs : (libcec_decode_message (some (h :: o :: rest)) (rest.length + 2)).map Prod.fst
      = some LIBCEC_SUCCESS) :
    rest.length ≤ (msg_min_max.getD (msg_props.getD o 0 &&& 0x1F) (0, 0)).2 := by
  rw [decode_frame h o rest ho] at hs
  generalize msg_description.getD (msg_index.getD o 0) "" = text at hs
  generalize msg_props.getD o 0 = p at hs ⊢
  generalize msg_min_max.getD (p &&& 0x1F) (0, 0) = bounds at hs ⊢
  by_contra hlen
  have h4 : rest.length < bounds.1 ∨ rest.length > bounds.2 := Or.inr (by omega)
  split_ifs at hs <;>
    simp [LIBCEC_ERROR_NOT_SUPPORTED, LIBCEC_SUCCESS, LIBCEC_ERROR_OTHER,
      LIBCEC_ERROR_INVALID_PARAM] at hs

set_option maxRecDepth 100000 in
/-- Every length class has `min <= max`, and `max <= 14` except class 13. -/
theorem msg_min_max_bounds : ∀ c < 16,
    (msg_min_max.getD c (0, 0)).1 ≤ (msg_min_max.getD c (0, 0)).2
    ∧ (c ≠ 13 → (msg_min_max.getD c (0, 0)).2 ≤ 14)
    ∧ (msg_min_max.getD c (0, 0)).2 ≤ 17 := by
  decide

set_option maxRecDepth 100000 in
/-- Only opcode 0xA0 refers to length class 13. -/
theorem msg_props_class_13 : ∀ o < 256, msg_props.getD o 0 &&& 0x1F = 13 → o = 0xA0 := by
  decide

set_option maxRecDepth 100000 in
/-- C15, evaluated: VENDOR_COMMAND_WITH_ID (0xA0) refers to length class 13,
whose bounds are (3, 17), so the decoder accepts a frame of 19 bytes carrying
17 operands. Every other class has `min <= max <= 14`, and every accepted
frame with another opcode has at most 16 bytes. -/
theorem C15_accepts_19_byte_frame :
    (libcec_decode_message (some [0x30, 0xA0, 1, 2, 3, 4, 5, 6, 7, 8, 9, 10, 11, 12, 13, 14,
        15, 16, 17]) 19).map Prod.fst = some LIBCEC_SUCCESS
    ∧ msg_props.getD 0xA0 0 = 0x6d
    ∧ msg_min_max.getD (0x6d &&& 0x1F) (0, 0) = (3, 17)
    ∧ (∀ c < 16, (msg_min_max.getD c (0, 0)).1 ≤ (msg_min_max.getD c (0, 0)).2
        ∧ (c ≠ 13 → (msg_min_max.getD c (0, 0)).2 ≤ 14))
    ∧ (∀ (h o : Nat) (rest : List Nat), o < 256 → o ≠ 0xA0 →
        (libcec_decode_message (some (h :: o :: rest)) (rest.length + 2)).map Prod.fst
          = some LIBCEC_SUCCESS →
        rest.length + 2 ≤ 16)
    ∧ (∀ (h o : Nat) (rest : List Nat), o < 256 →
        (libcec_decode_message (some (h :: o :: rest)) (rest.length + 2)).map Prod.fst
          = some LIBCEC_SUCCESS →
        rest.length + 2 ≤ 19) := by
  refine ⟨by decide, by decide, by decide, fun c hc => ⟨(msg_min_max_bounds c hc).1,
    (msg_min_max_bounds c hc).2.1⟩, ?_, ?_⟩
  · intro h o rest ho hne hs
    have hlen := decode_success_length h o rest ho hs
    have hc := msg_props_class_lt o ho
    have hb := (msg_min_max_bounds _ hc).2.1 (fun h13 => hne (msg_props_class_13 o ho h13))
    omega
  · intro h o rest ho hs
    have hlen := decode_success_length h o rest ho hs
    have hb := (msg_min_max_bounds _ (msg_props_class_lt o ho)).2.2
    omega

set_option maxRecDepth 100000 in
/-- Apart from 0x72, `msg_index` sends every recognized opcode to the entry
the comments annotate with it; no opcode is sent to entry 30. -/
theorem msg_index_annotated : ∀ o < 256,
    msg_index.getD o 0 ≠ 30
    ∧ (msg_props.getD o 0 &&& 0x60 ≠ 0 → o ≠ 0x72 →
        msg_description_opcode.getD (msg_index.getD o 0) none = some o) := by
  decide

set_option maxRecDepth 100000 in
/-- C19, evaluated: `msg_index[0x72]` is 31, not 30, so opcode 0x72 is
described as "Report Audio Status", the entry the comments annotate with 0x7A,
instead of "Set System Audio Mode". The two recognized opcodes 0x72 and 0x7A
share entry 31 and no opcode reaches entry 30; every other recognized opcode
has the entry annotated with it. -/
theorem C19_index_0x72_is_31 :
    msg_index.getD 0x72 0 = 31
    ∧ msg_index.getD 0x7A 0 = 31
    ∧ msg_props.getD 0x72 0 &&& 0x60 ≠ 0
    ∧ msg_props.getD 0x7A 0 &&& 0x60 ≠ 0
    ∧ msg_description.getD 30 "" = "Set System Audio Mode"
    ∧ msg_description_opcode.getD 30 none = some 0x72
    ∧ msg_description.getD 31 "" = "Report Audio Status"
    ∧ msg_description_opcode.getD 31 none = some 0x7A
    ∧ libcec_decode_message (some [0x0F, 0x72, 0x01]) 3
        = some (LIBCEC_SUCCESS,
            [LogLine.decoded 0 0xF "Report Audio Status", LogLine.buffer_hex [0x72, 0x01]])
    ∧ (∀ o < 256, msg_index.getD o 0 ≠ 30)
    ∧ (∀ o < 256, msg_props.getD o 0 &&& 0x60 ≠ 0 → o ≠ 0x72 →
        msg_description_opcode.getD (msg_index.getD o 0) none = some o) := by
  refine ⟨by decide, by decide, by decide, by decide, by decide, by decide, by decide,
    by decide, by decide, fun o ho => (msg_index_annotated o ho).1,
    fun o ho => (msg_index_annotated o ho).2⟩

set_option maxRecDepth 100000 in
/-- C20, evaluated: with eleven operands the loop of `dump_rx_cmd` and
`dump_tx_cmd` ends with `p - buf = 66`, so the terminator `*(p - 2)` is written
at offset 64, outside the 64-byte buffer; with twelve operands the twelfth
`snprintf` starts at offset 66 with a size argument that has wrapped around.
For byte operands the formatting stays inside the buffer exactly for counts up
to ten. -/
theorem C20_dump_buffer_overrun :
    (dump_loop (fun _ => 0xAB) 11 0 0 []).map Prod.fst = some 66
    ∧ dump_buf 11 (fun _ => 0xAB) = none
    ∧ dump_loop (fun _ => 0xAB) 12 0 0 [] = none
    ∧ dump_buf 12 (fun _ => 0xAB) = none
    ∧ dump_buf 13 (fun _ => 0xAB) = none
    ∧ dump_buf 14 (fun _ => 0xAB) = none
    ∧ dump_buf 10 (fun _ => 0xAB)
        = some "0xAB, 0xAB, 0xAB, 0xAB, 0xAB, 0xAB, 0xAB, 0xAB, 0xAB, 0xAB".toList
    ∧ dump_rx_cmd (rx_frame 0 3 0x47
        [0x4C, 0x69, 0x76, 0x69, 0x6E, 0x67, 0x20, 0x52, 0x6F, 0x6F, 0x6D]) = none
    ∧ dump_tx_cmd { memset_tx with tx_count := 11 } = none
    ∧ (∀ (operand : Nat → Nat), (∀ j, operand j < 256) →
        ∀ count, (dump_buf count operand ≠ none ↔ count ≤ 10)) := by
  refine ⟨by decide, by decide, by decide, by decide, by decide, by decide,
    by decide, by decide, by decide, dump_buf_in_bounds_iff⟩

end CEC
